import Mathlib

/-!
A shallow embedding, over exact rational arithmetic, of the metric-resolution
and deterministic-scoring core of the StockLenses backend
(`backend/services/metric_resolver.py`, `backend/services/metrics_calculator.py`,
`backend/services/snapshot_service.py`, `backend/services/confidence_calculator.py`,
`backend/normalizers/finnhub_normalizer.py`, `backend/normalizers/yahoo_normalizer.py`).

Modelling conventions:
* Python `float` values that pass `math.isfinite` are modelled as `ℚ`;
  a nullable numeric slot (`None`, `NaN`, `Infinity`, or a non-numeric value,
  all of which fail the sources' `_is_num` test) is `Option ℚ` with `none`
  for the unusable states.  `_is_num v` is therefore `v.isSome`.
* Python's truthiness-based `a or b` on nullable numbers treats `0.0` as
  falsy; `pyOr` mirrors that exactly.
* `math.log10` (used once, inside a clamp in the capital-allocation scorer)
  is threaded through as an explicit function argument `log10 : ℚ → ℚ`;
  its output is always clamped to `[0, 10]`, so no claim depends on its value.
* `datetime.utcfromtimestamp` (inside the Yahoo price normalizer, where the
  source catches every exception it can raise and maps failure to a skipped
  row) is likewise threaded through as `toYmd : ℤ → Option String`.
* `snapshot_hash = sha256(json(hash_payload))[:16]` applies a fixed
  deterministic function to the canonical payload; we model the hash by its
  pre-image `HashPayload`, so equal payloads mean equal hashes and the
  hashed field set is the literal field set of the structure.
-/

namespace StockLenses

/-- Python `a or b` for nullable numbers: `None` and `0.0` are falsy. -/
def pyOr (a b : Option ℚ) : Option ℚ :=
  match a with
  | some x => if x = 0 then b else some x
  | none => b

/-- Python `a or b` for nullable strings: `None` and `""` are falsy. -/
def pyOrStr (a : Option String) (b : Option String) : Option String :=
  match a with
  | some s => if s = "" then b else some s
  | none => b

/-- `_clamp(x)` from snapshot_service.py with default bounds:
`max(0.0, min(10.0, x))`. -/
def clamp10 (x : ℚ) : ℚ := max 0 (min 10 x)

/-- The `max(0.0, min(1.0, x))` idiom used inline by several scorers. -/
def clamp01 (x : ℚ) : ℚ := max 0 (min 1 x)

/-- Round half to even at the integers (Python's `round` tie-breaking). -/
def roundHalfEven (x : ℚ) : ℤ :=
  let f := ⌊x⌋
  let r := x - f
  if r < 1/2 then f
  else if r > 1/2 then f + 1
  else if f % 2 = 0 then f else f + 1

/-- Python `round(x, d)` on exact rationals. -/
def roundTo (d : ℕ) (x : ℚ) : ℚ := (roundHalfEven (x * 10 ^ d) : ℚ) / 10 ^ d

/-- The numerator contribution of one `(sub-score, weight)` pair in
`_weighted_avg`'s loop: `v * w` for a numeric sub-score, `0` otherwise. -/
def wnumTerm (p : Option ℚ × ℚ) : ℚ :=
  match p.1 with
  | some v => v * p.2
  | none => 0

/-- The denominator contribution of one `(sub-score, weight)` pair in
`_weighted_avg`'s loop: `w` for a numeric sub-score, `0` otherwise. -/
def wdenTerm (p : Option ℚ × ℚ) : ℚ :=
  match p.1 with
  | some _ => p.2
  | none => 0

/-- `_weighted_avg(subs, weights)` from snapshot_service.py: weighted average
that skips null sub-scores (their weight is excluded from the denominator),
returning null when no weight is applicable. -/
def weightedAvg (subs : List (Option ℚ)) (weights : List ℚ) : Option ℚ :=
  let pairs := subs.zip weights
  let num := (pairs.map wnumTerm).sum
  let den := (pairs.map wdenTerm).sum
  if 0 < den then some (num / den) else none

/-! ## Metric resolution layer (`backend/services/metric_resolver.py`) -/

/-- `validate_eps_forward(eps_forward, eps_ttm)`: a forward-EPS candidate is
dropped unless it is a positive finite number, and additionally dropped when a
positive trailing EPS exists and the candidate exceeds three times it. -/
def validateEpsForward (eps_forward : Option ℚ) (eps_ttm : Option ℚ) : Option ℚ :=
  match eps_forward with
  | none => none
  | some f =>
    if f ≤ 0 then none
    else
      match eps_ttm with
      | some t => if 0 < t ∧ 3 * t < f then none else some f
      | none => some f

/-- `compute_pe_fwd(price_current, eps_forward_validated)`:
`price / eps` when both are numeric and `eps > 0`, else null.
(The source has no positivity check on the price.) -/
def computePeFwd (price_current : Option ℚ) (eps_forward_validated : Option ℚ) : Option ℚ :=
  match price_current, eps_forward_validated with
  | some p, some e => if e ≤ 0 then none else some (p / e)
  | _, _ => none

/-- The `_TTM_FLOW_FIELDS` list from metric_resolver.py (the default
`required_fields` of `check_ttm_coverage`). -/
def ttmFlowFields : List String :=
  ["net_income", "cfo", "capex", "ebit",
   "revenue", "shares_diluted", "interest_expense",
   "depreciation", "stock_based_compensation"]

/-- A canonical quarterly financial-statement record (`FinancialsHistory`
dict), restricted to the numeric fields read by the embedded functions.
Each slot is `none` when the dict key is absent or fails `_is_num`. -/
structure QRecord where
  revenue : Option ℚ
  net_income : Option ℚ
  cfo : Option ℚ
  capex : Option ℚ
  ebit : Option ℚ
  interest_expense : Option ℚ
  depreciation : Option ℚ
  stock_based_compensation : Option ℚ
  shares_diluted : Option ℚ
  cash : Option ℚ
  total_debt : Option ℚ
  stockholder_equity : Option ℚ
  total_assets : Option ℚ
  shares_outstanding : Option ℚ
  deriving Repr

/-- `q.get(field)` for the TTM flow field names used by `check_ttm_coverage`. -/
def QRecord.fieldNum (q : QRecord) (f : String) : Option ℚ :=
  if f = "net_income" then q.net_income
  else if f = "cfo" then q.cfo
  else if f = "capex" then q.capex
  else if f = "ebit" then q.ebit
  else if f = "revenue" then q.revenue
  else if f = "shares_diluted" then q.shares_diluted
  else if f = "interest_expense" then q.interest_expense
  else if f = "depreciation" then q.depreciation
  else if f = "stock_based_compensation" then q.stock_based_compensation
  else none

/-- The coverage report returned by `check_ttm_coverage`. -/
structure CoverageReport where
  quarter_count : ℕ
  sufficient : Bool
  field_coverage : List (String × ℕ)
  warnings : List String
  null_fields : List String
  deriving Repr

/-- `check_ttm_coverage(quarterly, ticker)` from metric_resolver.py with the
default `required_fields`.  The warning strings mirror the source messages
(with the single quotes around the field name elided). -/
def checkTTMCoverage (quarterly : List QRecord) (ticker : String) : CoverageReport :=
  let last4 := quarterly.take 4
  let qc := last4.length
  let fieldCov := ttmFlowFields.map
    (fun f => (f, (last4.filter (fun q => (q.fieldNum f).isSome)).length))
  if 4 ≤ qc then
    { quarter_count := qc
      sufficient := true
      field_coverage := fieldCov
      warnings := (fieldCov.filter (fun p => p.2 < 4)).map
        (fun p => "[TTM_INTEGRITY] " ++ ticker ++ ": field " ++ p.1 ++ " has only "
          ++ toString p.2 ++ "/4 quarters populated. TTM sum for this field will be null.")
      null_fields := [] }
  else
    { quarter_count := qc
      sufficient := false
      field_coverage := fieldCov
      warnings := ["[TTM_INTEGRITY] " ++ ticker ++ ": Only " ++ toString qc
        ++ "/4 quarterly records available. TTM flow metrics will be null. Do NOT backfill with projections."]
      null_fields := ["eps_ttm", "pe_ttm", "fcf_ttm", "cfo_ttm", "capex_ttm",
                      "ebit_ttm", "net_income_ttm", "revenue_ttm", "ebitda_ttm"] }

/-! ## Deterministic metrics calculator (`backend/services/metrics_calculator.py`) -/

/-- The `ttm_sum` closure inside `build_ttm`: sum of a field over the (at
most) 4 most recent quarters, defined only when exactly 4 numeric values
are found. -/
def ttmSum (last4 : List QRecord) (get : QRecord → Option ℚ) : Option ℚ :=
  let nums := (last4.map get).filterMap id
  if nums.length = 4 then some nums.sum else none

/-- The `ttm_avg` closure inside `build_ttm`: like `ttm_sum` but divided by 4. -/
def ttmAvg (last4 : List QRecord) (get : QRecord → Option ℚ) : Option ℚ :=
  let nums := (last4.map get).filterMap id
  if nums.length = 4 then some (nums.sum / 4) else none

/-- The TTM dict produced by `build_ttm`. -/
structure TTMAgg where
  revenue : Option ℚ
  net_income : Option ℚ
  cfo : Option ℚ
  capex : Option ℚ
  ebit : Option ℚ
  interest_expense : Option ℚ
  depreciation : Option ℚ
  sbc : Option ℚ
  shares_diluted_avg : Option ℚ
  deriving Repr

/-- The BALANCE dict produced by `build_ttm` (point-in-time, from the most
recent quarter). -/
structure BalanceAgg where
  cash : Option ℚ
  total_debt : Option ℚ
  stockholder_equity : Option ℚ
  total_assets : Option ℚ
  shares_outstanding : Option ℚ
  deriving Repr

/-- `build_ttm(quarterly)` from metrics_calculator.py: `quarterly` is sorted
newest-first; flows are summed over `quarterly[:4]` under the all-4-present
rule, the balance sheet is read from `quarterly[0]`.
`shares_outstanding` uses Python `or` (`0.0` falls through). -/
def buildTTM (quarterly : List QRecord) : TTMAgg × BalanceAgg :=
  let last4 := quarterly.take 4
  let ttm : TTMAgg :=
    { revenue := ttmSum last4 (fun q => q.revenue)
      net_income := ttmSum last4 (fun q => q.net_income)
      cfo := ttmSum last4 (fun q => q.cfo)
      capex := ttmSum last4 (fun q => q.capex)
      ebit := ttmSum last4 (fun q => q.ebit)
      interest_expense := ttmSum last4 (fun q => q.interest_expense)
      depreciation := ttmSum last4 (fun q => q.depreciation)
      sbc := ttmSum last4 (fun q => q.stock_based_compensation)
      shares_diluted_avg := ttmAvg last4 (fun q => q.shares_diluted) }
  let bal : BalanceAgg :=
    match quarterly.head? with
    | some latest =>
      { cash := latest.cash
        total_debt := latest.total_debt
        stockholder_equity := latest.stockholder_equity
        total_assets := latest.total_assets
        shares_outstanding := pyOr latest.shares_outstanding latest.shares_diluted }
    | none =>
      { cash := none, total_debt := none, stockholder_equity := none,
        total_assets := none, shares_outstanding := none }
  (ttm, bal)

/-- A `PricesHistory` row as consumed by the pipeline (only the fields the
embedded slice reads). -/
structure PriceRow where
  date : String
  close : Option ℚ
  close_adj : Option ℚ
  deriving Repr

/-- `sorted(prices, key=date, reverse=True)[0]` — the first row (in input
order) carrying the maximal date, or `none` for an empty list.  Python's
sort is stable, so ties keep input order. -/
def latestPriceRow (prices : List PriceRow) : Option PriceRow :=
  prices.foldl
    (fun acc p =>
      match acc with
      | none => some p
      | some q => if q.date < p.date then some p else acc)
    none

/-- The fields of the `run_deterministic_pipeline` payload that are fixed by
its seed block (metrics_calculator.py lines 597–684).  The subsequent
`payload.update(...)` steps (price, quality, capital-allocation, growth and
risk metrics) write key sets disjoint from these, so the seed values are the
returned values for these keys.  `ttm_insufficient` models the source's
`partial_ttm` flag. -/
structure PipelineCore where
  ttm_insufficient : Bool
  cfo_ttm : Option ℚ
  capex_ttm : Option ℚ
  ebit_ttm : Option ℚ
  depreciation_ttm : Option ℚ
  ebitda_ttm : Option ℚ
  net_income_ttm : Option ℚ
  interest_expense_ttm : Option ℚ
  sbc_ttm : Option ℚ
  revenue_ttm : Option ℚ
  fcf_ttm : Option ℚ
  eps_ttm : Option ℚ
  eps_forward : Option ℚ
  cash : Option ℚ
  total_debt : Option ℚ
  equity : Option ℚ
  total_assets : Option ℚ
  shares_out : Option ℚ
  market_cap : Option ℚ
  pe_fwd : Option ℚ
  deriving Repr

/-- The seed block of `run_deterministic_pipeline(ticker, quarterly, annual,
prices, spy_prices, existing_metrics)`.  `existing_eps_forward` stands for
`(existing_metrics or {}).get("eps_forward")`; `annual`, `spy_prices` and
`existing_metrics["eps_cagr_5y_pct"]` only feed the excluded growth/risk
update steps. -/
def runPipelineCore (ticker : String) (quarterly : List QRecord)
    (prices : List PriceRow) (existing_eps_forward : Option ℚ) : PipelineCore :=
  let cov := checkTTMCoverage quarterly ticker
  let pt := !cov.sufficient
  let tb := buildTTM quarterly
  let ttm := tb.1
  let bal := tb.2
  -- fcf_ttm = (cfo - abs(capex)) if both numeric else None
  let fcf : Option ℚ :=
    match ttm.cfo, ttm.capex with
    | some c, some x => some (c - |x|)
    | _, _ => none
  -- ebitda_ttm = (ebit + dep) if both numeric else None
  let ebitda : Option ℚ :=
    match ttm.ebit, ttm.depreciation with
    | some e, some d => some (e + d)
    | _, _ => none
  -- eps_ttm = ni / sh_avg if both numeric and sh_avg > 0 else None
  let eps : Option ℚ :=
    match ttm.net_income, ttm.shares_diluted_avg with
    | some n, some s => if 0 < s then some (n / s) else none
    | _, _ => none
  -- price_now = sorted_prices[0].get("close_adj") if sorted_prices else None
  let price_now : Option ℚ := (latestPriceRow prices).bind (fun p => p.close_adj)
  let sh_out := bal.shares_outstanding
  let mcap : Option ℚ :=
    match price_now, sh_out with
    | some p, some s => some (p * s)
    | _, _ => none
  let fwd := validateEpsForward existing_eps_forward eps
  -- pe_fwd = price_now / eps_forward when both numeric and eps_forward > 0
  let pf : Option ℚ :=
    match price_now, fwd with
    | some p, some e => if 0 < e then some (p / e) else none
    | _, _ => none
  { ttm_insufficient := pt
    cfo_ttm := ttm.cfo
    capex_ttm := ttm.capex
    ebit_ttm := ttm.ebit
    depreciation_ttm := ttm.depreciation
    ebitda_ttm := ebitda
    net_income_ttm := ttm.net_income
    interest_expense_ttm := ttm.interest_expense
    sbc_ttm := ttm.sbc
    revenue_ttm := ttm.revenue
    fcf_ttm := fcf
    eps_ttm := eps
    eps_forward := fwd
    cash := bal.cash
    total_debt := bal.total_debt
    equity := bal.stockholder_equity
    total_assets := bal.total_assets
    shares_out := sh_out
    market_cap := mcap
    pe_fwd := pf }

/-! ## Scoring and snapshot engine (`backend/services/snapshot_service.py`) -/

/-- The 9 scoring categories (the keys of `_CATEGORY_SCORERS`, in dict
insertion order).  The source's "macro" key is the `macroTheme` constructor. -/
inductive Category where
  | valuation
  | quality
  | capitalAllocation
  | growth
  | moat
  | risk
  | macroTheme
  | narrative
  | dilution
  deriving DecidableEq, Repr

/-- The 9 categories in `_CATEGORY_SCORERS` insertion order. -/
def Category.all : List Category :=
  [.valuation, .quality, .capitalAllocation, .growth, .moat,
   .risk, .macroTheme, .narrative, .dilution]

/-- A Metrics dict.  `num f` is the value of numeric field `f` after the
`_is_num` test (`none` for absent / `None` / non-finite / non-numeric);
the two non-numeric fields read by the scorers are modelled separately. -/
structure Metrics where
  num : String → Option ℚ
  founder_led_bool : Option Bool
  sector_cyc_tag : Option String
  as_of_date : Option String

/-- `_score_valuation(m)`.  The source inlines the same accumulation loop as
`_weighted_avg`; the sub-score lookup tables are transcribed verbatim. -/
def scoreValuation (m : Metrics) : Option ℚ :=
  let pe := m.num "pe_fwd"
  let ev := m.num "ev_ebitda"
  let fcfY := m.num "fcf_yield_pct"
  let peg := m.num "peg_5y"
  let peTtm := m.num "pe_ttm"
  let peLow := m.num "pe_5y_low"
  let peHi := m.num "pe_5y_high"
  let subPe := pe.map (fun p =>
    if p ≤ 10 then (10 : ℚ) else if p ≤ 15 then 9 else if p ≤ 20 then 7
    else if p ≤ 25 then 5 else if p ≤ 35 then 3 else 1)
  let subPeg := peg.map (fun g =>
    if g ≤ 1 then (9 : ℚ) else if g ≤ 3/2 then 7 else if g ≤ 2 then 5
    else if g ≤ 3 then 3 else 1)
  let subEv := ev.map (fun e =>
    if e ≤ 7 then (10 : ℚ) else if e ≤ 10 then 8 else if e ≤ 14 then 6
    else if e ≤ 20 then 4 else 2)
  let subFcfy := fcfY.map (fun y =>
    if 8 ≤ y then (10 : ℚ) else if 5 ≤ y then 8 else if 3 ≤ y then 6
    else if 1 ≤ y then 3 else 1)
  let subHist :=
    match peTtm, peLow, peHi with
    | some t, some lo, some hi =>
      if lo < hi then some (10 * clamp01 ((hi - t) / (hi - lo))) else none
    | _, _, _ => none
  weightedAvg [subPe, subPeg, subEv, subFcfy, subHist]
    [35/100, 15/100, 20/100, 15/100, 15/100]

/-- `_score_quality(m)`. -/
def scoreQuality (m : Metrics) : Option ℚ :=
  let roic := m.num "roic_pct"
  let fcfMargin := m.num "fcf_margin_pct"
  let cfoToNi := m.num "cfo_to_ni"
  let fcfEbit := m.num "fcf_to_ebit"
  let accr := m.num "accruals_ratio"
  let ms := m.num "margin_stdev_5y_pct"
  let subRoic := roic.map (fun r => clamp10 (r / 2))
  let subFcfm := fcfMargin.map (fun x => clamp10 (x / (3/2)))
  let ccVals := [cfoToNi, fcfEbit].filterMap id
  let subCc :=
    if ccVals.length = 0 then none
    else some (clamp10 (10 * ccVals.sum / ccVals.length))
  let subAcc := accr.map (fun a => clamp10 (10 * clamp01 ((1/10 - |a|) / (1/10))))
  let subMs := ms.map (fun s => clamp10 (10 - clamp10 (s * (1/2))))
  weightedAvg [subRoic, subFcfm, subCc, subAcc, subMs]
    [35/100, 25/100, 20/100, 10/100, 10/100]

/-- `_score_capital_allocation(m)`.  `math.log10` is passed in as `lg`; its
only use is inside a `_clamp`, so every sub-score stays in `[0, 10]`
whatever `lg` is. -/
def scoreCapitalAllocation (lg : ℚ → ℚ) (m : Metrics) : Option ℚ :=
  let buyback := m.num "buyback_yield_pct"
  let intCov := m.num "interest_coverage_x"
  let subBb := buyback.map (fun b =>
    if 6 ≤ b then (10 : ℚ) else if 4 ≤ b then 8 else if 2 ≤ b then 7
    else if 0 ≤ b then 5 else if -2 ≤ b then 3 else 1)
  let subIc :=
    match intCov with
    | some c => if -1 < c then some (clamp10 (lg (c + 1) * 4)) else none
    | none => none
  let ebitT := m.num "ebit_t"
  let ebitT3 := m.num "ebit_t3"
  let invcapT := m.num "invcap_t"
  let invcapT3 := m.num "invcap_t3"
  let subRoiic :=
    match ebitT, ebitT3, invcapT, invcapT3 with
    | some a, some a3, some i, some i3 =>
      if i ≠ i3 then some (clamp10 ((a - a3) / (i - i3) * 100 / 2)) else none
    | _, _, _, _ => none
  weightedAvg [subBb, subIc, subRoiic] [40/100, 40/100, 20/100]

/-- `_score_growth(m)`.  (`math.isfinite(acc)` is always true over `ℚ`.) -/
def scoreGrowth (m : Metrics) : Option ℚ :=
  let eps5y := m.num "eps_cagr_5y_pct"
  let rev5y := m.num "revenue_cagr_5y_pct"
  let eps3y := m.num "eps_cagr_3y_pct"
  let rev3y := m.num "revenue_cagr_3y_pct"
  let subEps5 := eps5y.map (fun e =>
    if 25 ≤ e then (10 : ℚ) else if 20 ≤ e then 9 else if 15 ≤ e then 8
    else if 12 ≤ e then 7 else if 10 ≤ e then 6 else if 7 ≤ e then 5
    else if 0 ≤ e then 3 else 1)
  let subRev5 := rev5y.map (fun r =>
    if 20 ≤ r then (10 : ℚ) else if 15 ≤ r then 9 else if 12 ≤ r then 8
    else if 8 ≤ r then 7 else if 5 ≤ r then 6 else if 0 ≤ r then 3 else 1)
  let subAcc :=
    match eps5y, eps3y, rev5y, rev3y with
    | some e5, some e3, some r5, some r3 =>
      some (clamp10 (max 0 (7 + (3/10) * ((e3 - e5) + (r3 - r5)))))
    | _, _, _, _ => none
  let subRec := (m.num "recurring_revenue_pct").map (fun r => 10 * clamp01 (r / 100))
  weightedAvg [subEps5, subRev5, subAcc, subRec] [40/100, 30/100, 15/100, 15/100]

/-- `_score_moat(m)`.  `founder` is the truthiness of
`m.get("founder_led_bool")`.  The source inlines the `_weighted_avg` loop. -/
def scoreMoat (m : Metrics) : Option ℚ :=
  let base := m.num "moat_score_0_10"
  let recurring := m.num "recurring_revenue_pct"
  let insider := m.num "insider_own_pct"
  let founder := m.founder_led_bool.getD false
  let subBase := base
  let subRec := recurring.map (fun r => 10 * clamp01 (r / 100))
  let subOwner := insider.map (fun i =>
    min 10 (clamp10 (5 * min 1 (i / 5)) + (if founder then (2 : ℚ) else 0)))
  weightedAvg [subBase, subRec, subOwner] [55/100, 30/100, 15/100]

/-- The `cyc_map.get((cyc_tag or "").lower(), 6)` lookup in `_score_risk`. -/
def cycScore (s : String) : ℚ :=
  if s = "defensive" then 8 else if s = "secular" then 7
  else if s = "growth" then 6 else if s = "cyclical" then 4
  else if s = "deep-cyclical" then 3 else 6

/-- `_score_risk(m)`. -/
def scoreRisk (m : Metrics) : Option ℚ :=
  let baseRisk := m.num "riskdownside_score_0_10"
  let ndEbitda := m.num "netdebt_to_ebitda"
  let ncMcap := m.num "netcash_to_mktcap_pct"
  let beta := m.num "beta_5y"
  let maxdd := m.num "maxdrawdown_5y_pct"
  let cycTag := m.sector_cyc_tag
  let subBase := baseRisk
  let subNd := ndEbitda.map (fun x => clamp10 (10 * clamp01 ((3 - x) / 2)))
  let subBeta := beta.map (fun b => clamp10 (10 - |b| * 5))
  let subNc := ncMcap.map (fun x =>
    if 20 ≤ x then (10 : ℚ) else if 10 ≤ x then 8 else if 0 ≤ x then 6
    else if -10 ≤ x then 4 else if -25 ≤ x then 2 else 0)
  let subDd := maxdd.map (fun x =>
    if |x| ≤ 15 then (10 : ℚ) else if |x| ≤ 25 then 8 else if |x| ≤ 35 then 6
    else if |x| ≤ 50 then 4 else if |x| ≤ 65 then 2 else 0)
  let subCyc : ℚ := cycScore ((cycTag.getD "").toLower)
  weightedAvg [subBase, subNd, subNc, subBeta, subDd, some subCyc]
    [35/100, 20/100, 10/100, 15/100, 10/100, 10/100]

/-- `_score_macro(m)`: the `macrofit_score_0_10` field passed through
unmodified (not clamped). -/
def scoreMacroFit (m : Metrics) : Option ℚ := m.num "macrofit_score_0_10"

/-- `_score_narrative(m)`: the `narrative_score_0_10` field passed through
unmodified (not clamped). -/
def scoreNarrative (m : Metrics) : Option ℚ := m.num "narrative_score_0_10"

/-- `_score_dilution(m)`. -/
def scoreDilution (m : Metrics) : Option ℚ :=
  let change := m.num "sharecount_change_5y_pct"
  let sbc := m.num "sbc_to_sales_pct"
  let subChange := change.map (fun c =>
    if 5 ≤ c then (10 : ℚ) else if 2 ≤ c then 8 else if 0 ≤ c then 6
    else if -2 ≤ c then 4 else if -5 ≤ c then 2 else 0)
  let subSbc := sbc.map (fun s =>
    if s ≤ 1 then (10 : ℚ) else if s ≤ 2 then 8 else if s ≤ 4 then 6
    else if s ≤ 6 then 4 else if s ≤ 10 then 2 else 0)
  weightedAvg [subChange, subSbc] [60/100, 40/100]

/-- `compute_category_scores(metrics)`: the `_CATEGORY_SCORERS` dispatch. -/
def computeCategoryScores (lg : ℚ → ℚ) (m : Metrics) : Category → Option ℚ
  | .valuation => scoreValuation m
  | .quality => scoreQuality m
  | .capitalAllocation => scoreCapitalAllocation lg m
  | .growth => scoreGrowth m
  | .moat => scoreMoat m
  | .risk => scoreRisk m
  | .macroTheme => scoreMacroFit m
  | .narrative => scoreNarrative m
  | .dilution => scoreDilution m

/-- The loop body of `compute_final_score(category_scores, lens_weights)`.
A category contributes iff its score is numeric and its weight is numeric
and positive.  (The source's `lens_weights.get(cat) or
lens_weights.get(_camel_to_snake(cat))` lookup resolves to the
per-category weight modelled here: for the dict built by `compute_snapshot`
the snake-case fallback key is either the same key or absent, and a falsy
`0.0` weight is excluded by the `w > 0` test either way.) -/
def finalScoreStepFn (category_scores lens_weights : Category → Option ℚ)
    (acc : ℚ × ℚ) (c : Category) : ℚ × ℚ :=
  match category_scores c, lens_weights c with
  | some s, some w => if 0 < w then (acc.1 + s * w, acc.2 + w) else acc
  | _, _ => acc

/-- `compute_final_score` proper: fold the step over the 9 categories and
divide, or return null when no weight was applicable. -/
def computeFinalScore (category_scores : Category → Option ℚ)
    (lens_weights : Category → Option ℚ) : Option ℚ :=
  let t := Category.all.foldl (finalScoreStepFn category_scores lens_weights) (0, 0)
  if 0 < t.2 then some (t.1 / t.2) else none

/-- `compute_recommendation(final_score, buy_threshold, watch_threshold)`. -/
def computeRecommendation (final_score : Option ℚ) (buy watch : ℚ) : String :=
  match final_score with
  | none => "INSUFFICIENT_DATA"
  | some s => if buy ≤ s then "BUY" else if watch ≤ s then "WATCH" else "AVOID"

/-- `compute_mos_signal(mos_pct, neutral_band)`. -/
def computeMosSignal (mos_pct : Option ℚ) (neutral_band : ℚ) : Option String :=
  match mos_pct with
  | none => none
  | some v =>
    if neutral_band < v then some "+"
    else if v < -neutral_band then some "-"
    else some "0"

/-! ## Confidence calculator (`backend/services/confidence_calculator.py`) -/

/-- `LENS_REQUIRED_FIELDS[name]`, with the
`LENS_REQUIRED_FIELDS.get(lens_name) or LENS_REQUIRED_FIELDS["Conservative"]`
fallback folded in (no table is empty, so Python's `or` only fires for
unknown names). -/
def lensRequiredFields (lens_name : String) : List (String × ℚ) :=
  if lens_name = "Value Purist" then
    [("pe_fwd", 2), ("pe_ttm", 3/2), ("ev_ebitda", 3/2), ("fcf_yield_pct", 2),
     ("peg_5y", 1), ("roic_pct", 3/2), ("fcf_margin_pct", 3/2), ("cfo_to_ni", 6/5),
     ("netdebt_to_ebitda", 3/2), ("interest_coverage_x", 6/5), ("eps_cagr_5y_pct", 1),
     ("revenue_cagr_5y_pct", 1), ("moat_score_0_10", 1), ("buyback_yield_pct", 1),
     ("beta_5y", 4/5)]
  else if lens_name = "Growth/Momentum" then
    [("eps_cagr_5y_pct", 2), ("revenue_cagr_5y_pct", 2), ("eps_cagr_3y_pct", 3/2),
     ("revenue_cagr_3y_pct", 3/2), ("recurring_revenue_pct", 6/5), ("pe_fwd", 1),
     ("peg_5y", 3/2), ("roic_pct", 1), ("fcf_margin_pct", 4/5),
     ("moat_score_0_10", 4/5), ("beta_5y", 4/5), ("maxdrawdown_5y_pct", 4/5)]
  else if lens_name = "Asymmetry Hunter" then
    [("pe_fwd", 1), ("fcf_yield_pct", 3/2), ("eps_cagr_5y_pct", 1),
     ("moat_score_0_10", 3/2), ("maxdrawdown_5y_pct", 3/2), ("beta_5y", 1),
     ("netcash_to_mktcap_pct", 3/2), ("insider_own_pct", 1),
     ("founder_led_bool", 1), ("narrative_score_0_10", 3/2)]
  else if lens_name = "Macro-Thematic" then
    [("macrofit_score_0_10", 2), ("narrative_score_0_10", 2), ("beta_5y", 1),
     ("revenue_cagr_5y_pct", 1), ("eps_cagr_5y_pct", 1), ("pe_fwd", 1),
     ("sector_cyc_tag", 1), ("moat_score_0_10", 4/5)]
  else if lens_name = "Quality Compounder" then
    [("roic_pct", 2), ("fcf_margin_pct", 3/2), ("cfo_to_ni", 6/5),
     ("fcf_to_ebit", 1), ("accruals_ratio", 1), ("margin_stdev_5y_pct", 1),
     ("eps_cagr_5y_pct", 3/2), ("revenue_cagr_5y_pct", 1), ("moat_score_0_10", 3/2),
     ("insider_own_pct", 4/5), ("buyback_yield_pct", 4/5), ("netdebt_to_ebitda", 1),
     ("interest_coverage_x", 1), ("pe_fwd", 1), ("peg_5y", 4/5)]
  else if lens_name = "Warren Buffett" then
    [("moat_score_0_10", 5/2), ("roic_pct", 2), ("fcf_margin_pct", 3/2),
     ("fcf_to_ebit", 1), ("cfo_to_ni", 1), ("margin_stdev_5y_pct", 1),
     ("buyback_yield_pct", 6/5), ("interest_coverage_x", 6/5),
     ("netdebt_to_ebitda", 1), ("eps_cagr_5y_pct", 1), ("revenue_cagr_5y_pct", 4/5),
     ("fcf_yield_pct", 3/2), ("pe_fwd", 1), ("pe_ttm", 4/5), ("pe_5y_low", 4/5),
     ("pe_5y_high", 4/5)]
  else if lens_name = "Benjamin Graham" then
    [("pe_fwd", 2), ("pe_ttm", 3/2), ("fcf_yield_pct", 2), ("ev_ebitda", 3/2),
     ("pe_5y_low", 6/5), ("pe_5y_high", 6/5), ("netdebt_to_ebitda", 2),
     ("interest_coverage_x", 3/2), ("beta_5y", 1), ("maxdrawdown_5y_pct", 1),
     ("netcash_to_mktcap_pct", 1), ("margin_stdev_5y_pct", 3/2),
     ("accruals_ratio", 6/5), ("cfo_to_ni", 1), ("roic_pct", 1),
     ("sharecount_change_5y_pct", 4/5)]
  else if lens_name = "Peter Lynch" then
    [("eps_cagr_5y_pct", 2), ("revenue_cagr_5y_pct", 3/2), ("eps_cagr_3y_pct", 3/2),
     ("revenue_cagr_3y_pct", 1), ("recurring_revenue_pct", 1), ("peg_5y", 2),
     ("pe_fwd", 6/5), ("fcf_yield_pct", 1), ("roic_pct", 1), ("fcf_margin_pct", 4/5),
     ("cfo_to_ni", 4/5), ("netdebt_to_ebitda", 1), ("interest_coverage_x", 4/5),
     ("moat_score_0_10", 4/5), ("narrative_score_0_10", 1)]
  else
    [("pe_fwd", 3/2), ("pe_ttm", 1), ("ev_ebitda", 6/5), ("fcf_yield_pct", 6/5),
     ("peg_5y", 4/5), ("pe_5y_low", 4/5), ("pe_5y_high", 4/5), ("roic_pct", 3/2),
     ("fcf_margin_pct", 6/5), ("cfo_to_ni", 1), ("fcf_to_ebit", 4/5),
     ("accruals_ratio", 4/5), ("margin_stdev_5y_pct", 4/5), ("buyback_yield_pct", 1),
     ("interest_coverage_x", 6/5), ("netdebt_to_ebitda", 1), ("eps_cagr_5y_pct", 1),
     ("revenue_cagr_5y_pct", 1), ("eps_cagr_3y_pct", 4/5), ("beta_5y", 4/5),
     ("maxdrawdown_5y_pct", 4/5)]

/-- `_is_present(metrics.get(f))` over the `Metrics` model: booleans are
always usable, strings must be non-empty after trim, numbers must be finite
(which `Metrics.num` already guarantees for its `some` values). -/
def isPresent (m : Metrics) (f : String) : Bool :=
  if f = "founder_led_bool" then m.founder_led_bool.isSome
  else if f = "sector_cyc_tag" then
    match m.sector_cyc_tag with
    | some s => !(s.trim = "")
    | none => false
  else (m.num f).isSome

/-- The dict returned by `compute_confidence`. -/
structure Confidence where
  confidence_pct : ℚ
  confidence_grade : String
  present_fields : List String
  missing_fields : List String
  total_weight : ℚ
  present_weight : ℚ

/-- `compute_confidence(metrics, lens_name)`. -/
def computeConfidence (m : Metrics) (lens_name : String) : Confidence :=
  let required := lensRequiredFields lens_name
  let tw := (required.map (fun p => p.2)).sum
  let pw := ((required.filter (fun p => isPresent m p.1)).map (fun p => p.2)).sum
  let pct := if 0 < tw then pw / tw * 100 else 0
  { confidence_pct := roundTo 1 pct
    confidence_grade :=
      if 85 ≤ pct then "A" else if 70 ≤ pct then "B"
      else if 50 ≤ pct then "C" else "D"
    present_fields := (required.filter (fun p => isPresent m p.1)).map (fun p => p.1)
    missing_fields := (required.filter (fun p => !isPresent m p.1)).map (fun p => p.1)
    total_weight := roundTo 4 tw
    present_weight := roundTo 4 pw }

/-! ## Snapshot assembly (`compute_snapshot` in snapshot_service.py) -/

/-- One entry of the contributor lists built by `_compute_contributions`. -/
structure Contribution where
  category : Category
  score : ℚ
  weight : ℚ
  contribution : ℚ
  deriving Repr

/-- `_compute_contributions(category_scores, lens_weights, final_score)`.
Python's `list.sort` is stable; `List.mergeSort` is as well. -/
def computeContributions (category_scores : Category → Option ℚ)
    (lens_weights : Category → Option ℚ) (final_score : Option ℚ) :
    List Contribution × List Contribution :=
  match final_score with
  | none => ([], [])
  | some fs =>
    let totalW := ((Category.all.filter
      (fun c => (category_scores c).isSome)).map
        (fun c => (lens_weights c).getD 0)).sum
    if totalW = 0 then ([], [])
    else
      let contribs := Category.all.filterMap (fun c =>
        match category_scores c, lens_weights c with
        | some s, some w =>
          if 0 < w then
            some { category := c, score := roundTo 3 s, weight := w,
                   contribution := roundTo 4 ((s - fs) * w / totalW) }
          else none
        | _, _ => none)
      let sortedC := contribs.mergeSort
        (fun a b => decide (b.contribution ≤ a.contribution))
      let positive := (sortedC.filter (fun c => decide (0 ≤ c.contribution))).take 3
      let negative := ((sortedC.filter (fun c => decide (c.contribution < 0))).mergeSort
        (fun a b => decide (a.contribution ≤ b.contribution))).take 3
      (positive, negative)

/-- A LensPreset dict as read by `compute_snapshot`: `lens.get("name",
"Conservative")` and `lens.get("id", "")` are modelled by the (defaulted)
field values, the nine category weights by `weights` (the `lens_weights`
dict the source builds at lines 531–541). -/
structure Lens where
  id : String
  name : String
  buyThreshold : Option ℚ
  watchThreshold : Option ℚ
  weights : Category → Option ℚ

/-- The canonical payload whose key-sorted JSON serialization is hashed into
`snapshot_hash` (`sha256(...)[:16]`).  These are exactly the hashed fields;
confidence, contributors, warnings and MOS are not part of it. -/
structure HashPayload where
  ticker : String
  lens_id : String
  lens_name : String
  score_version : String
  as_of_date : String
  final_score : Option ℚ
  category_scores : Category → Option ℚ
  recommendation : String

def SCORE_VERSION : String := "1.0.0"

def MOS_NEUTRAL_BAND : ℚ := 5

/-- The snapshot dict returned by `compute_snapshot`.  `snapshot_hash` is a
fixed deterministic function (SHA-256 of canonical JSON, truncated) of
`hash_payload`, so it is modelled by its pre-image.  The source's `id`
(`uuid4()`) and `created_at` (`utcnow()`) are nondeterministic metadata
outside every claim and outside the hashed payload; they are not modelled. -/
structure Snapshot where
  ticker_symbol : String
  lens_id : String
  lens_name : String
  score_version : String
  data_version : String
  final_score : Option ℚ
  category_scores : Category → Option ℚ
  recommendation : String
  confidence_pct : ℚ
  confidence_grade : String
  mos_pct : Option ℚ
  mos_signal : Option String
  top_positive_contributors : List Contribution
  top_negative_contributors : List Contribution
  missing_critical_fields : List String
  resolution_warnings : List String
  hash_payload : HashPayload
  as_of_date : String

/-- `compute_snapshot(ticker_symbol, lens, metrics, mos_pct,
resolution_warnings, neutral_band)`.  `today` stands for
`date.today().isoformat()` (used only when `metrics` carries no
`as_of_date`); `lg` is `math.log10`.  The thresholds use Python `or`
(`None` and `0.0` fall through to the defaults 6.5 / 4.5). -/
def computeSnapshot (lg : ℚ → ℚ) (today : String) (ticker_symbol : String)
    (lens : Lens) (metrics : Metrics) (mos_pct : Option ℚ)
    (resolution_warnings : List String) (neutral_band : ℚ) : Snapshot :=
  let buy := match lens.buyThreshold with
    | some b => if b = 0 then 13/2 else b
    | none => 13/2
  let watch := match lens.watchThreshold with
    | some w => if w = 0 then 9/2 else w
    | none => 9/2
  let category_scores := computeCategoryScores lg metrics
  let final_score := computeFinalScore category_scores lens.weights
  let recommendation := computeRecommendation final_score buy watch
  let conf := computeConfidence metrics lens.name
  let mos_signal := computeMosSignal mos_pct neutral_band
  let contrib := computeContributions category_scores lens.weights final_score
  let as_of := metrics.as_of_date.getD today
  { ticker_symbol := ticker_symbol
    lens_id := lens.id
    lens_name := lens.name
    score_version := SCORE_VERSION
    data_version := as_of
    final_score := final_score.map (roundTo 4)
    category_scores := fun c => (category_scores c).map (roundTo 4)
    recommendation := recommendation
    confidence_pct := conf.confidence_pct
    confidence_grade := conf.confidence_grade
    mos_pct := mos_pct.map (roundTo 2)
    mos_signal := mos_signal
    top_positive_contributors := contrib.1
    top_negative_contributors := contrib.2
    missing_critical_fields := conf.missing_fields
    resolution_warnings := resolution_warnings
    hash_payload :=
      { ticker := ticker_symbol
        lens_id := lens.id
        lens_name := lens.name
        score_version := SCORE_VERSION
        as_of_date := as_of
        final_score := final_score.map (roundTo 6)
        category_scores := fun c => (category_scores c).map (roundTo 6)
        recommendation := recommendation }
    as_of_date := as_of }

/-! ## Finnhub normalizer (`backend/normalizers/finnhub_normalizer.py`) -/

/-- `to_q(q)`: normalize a quarter label to `"Q1"`–`"Q4"`; anything
unrecognized defaults to `"Q1"`.  The regex `^[Q]?([1-4])$` (applied after
upper-casing, removing `"QUARTER"` and stripping) accepts a bare digit or a
`Q`-prefixed digit; the separate `s in ("Q1",...)` branch is subsumed. -/
def toQ (q : String) : String :=
  let s := ((q.toUpper).replace "QUARTER" "").trim
  match s.toList with
  | [c] =>
    if c = '1' ∨ c = '2' ∨ c = '3' ∨ c = '4' then String.mk ['Q', c] else "Q1"
  | ['Q', c] =>
    if c = '1' ∨ c = '2' ∨ c = '3' ∨ c = '4' then String.mk ['Q', c] else "Q1"
  | _ => "Q1"

/-- The YTD-differencing loop of `normalize_and_quarterize` for a single flow
field within a single fiscal year (finnhub_normalizer.py lines 312–321).
Input: the fiscal year's reports in quarter order as
`(quarter number, YTD value or none)`; `prev` is the running
`ytd_flows[key]` state (absent at the start of each fiscal year, read with
default `0.0`, and only updated when a YTD value is present).
Output: the per-quarter value written into `qd[key]` for each report
(`none` when the report carries no YTD value for the field).
The seven flow fields and the fiscal years are processed independently with
this same recurrence (separate `ytd_flows` keys, `ytd_flows = {}` per year). -/
def quarterizeFlowAux (prev : Option ℚ) : List (ℕ × Option ℚ) → List (Option ℚ)
  | [] => []
  | (qn, oy) :: rest =>
    match oy with
    | none => none :: quarterizeFlowAux prev rest
    | some y =>
      (some (if qn = 1 then y else y - prev.getD 0)) :: quarterizeFlowAux (some y) rest

/-- One fiscal year's YTD differencing for one flow field (fresh
`ytd_flows` state). -/
def quarterizeFlow (l : List (ℕ × Option ℚ)) : List (Option ℚ) :=
  quarterizeFlowAux none l

/-- Per-fiscal-year independence: the source resets `ytd_flows = {}` at the
start of every fiscal year, so quarterizing a list of fiscal years is the
independent map of `quarterizeFlow`. -/
def quarterizeYears (years : List (List (ℕ × Option ℚ))) : List (List (Option ℚ)) :=
  years.map quarterizeFlow

/-- The spec's reading of YTD differencing ("quarter 1's value is the YTD
figure itself; quarter N>1's value is (YTD at quarter N) − (YTD at quarter
N−1); if any of the two cumulative values is missing, the per-quarter value
is null").  `prevY` is the previous quarter's YTD value (present or not). -/
def specQuarterizeAux (prevY : Option ℚ) : List (ℕ × Option ℚ) → List (Option ℚ)
  | [] => []
  | (qn, oy) :: rest =>
    (if qn = 1 then oy
     else
       match oy, prevY with
       | some a, some b => some (a - b)
       | _, _ => none) :: specQuarterizeAux oy rest

/-- The claim's YTD differencing, per fiscal year. -/
def specQuarterize (l : List (ℕ × Option ℚ)) : List (Option ℚ) :=
  specQuarterizeAux none l

/-- One raw row of the Finnhub `financials-reported` response `data` array,
restricted to what the report-collection prelude of
`normalize_and_quarterize` reads.  `hasReport` is the truthiness of
`r.get("report")`; `quarterLabel` is the value of the
`r.get("quarter") or r.get("fiscalQuarter") or r["report"].get("fp") or
r.get("period")` chain (already stringified, as `to_q` does via `str`). -/
structure RawRow where
  hasReport : Bool
  year : Option ℤ
  endDate : Option String
  acceptedDate : Option String
  period : Option String
  quarterLabel : Option String
  deriving Repr

/-- A collected report entry (`fiscalYear`, `quarter`, `periodEnd`). -/
structure ReportRec where
  fiscalYear : ℤ
  quarter : String
  periodEnd : String
  deriving Repr

/-- Number of days in a month, Gregorian calendar (what
`datetime.strptime(..., "%Y-%m-%d")` validates against). -/
def daysInMonth (y : ℤ) (mo : ℕ) : ℕ :=
  if mo = 2 then
    if y % 4 = 0 ∧ (y % 100 ≠ 0 ∨ y % 400 = 0) then 29 else 28
  else if mo = 4 ∨ mo = 6 ∨ mo = 9 ∨ mo = 11 then 30
  else 31

/-- All-digit string to number. -/
def digitsToNat (l : List Char) : Option ℕ :=
  if l ≠ [] ∧ l.all Char.isDigit then
    some (l.foldl (fun a c => a * 10 + (c.toNat - 48)) 0)
  else none

/-- Split a character list on `'-'`. -/
def splitDashAux (cur : List Char) : List Char → List (List Char)
  | [] => [cur.reverse]
  | c :: cs =>
    if c = '-' then cur.reverse :: splitDashAux [] cs
    else splitDashAux (c :: cur) cs

/-- Python `s[:10]`. -/
def pyTake10 (s : String) : String := String.mk (s.toList.take 10)

/-- `datetime.strptime(s, "%Y-%m-%d").year`: succeeds on `YYYY-MM-DD`
(1–2-digit month/day also parse, as in CPython) with a valid calendar date,
raises `ValueError` otherwise.  The uncaught exception is `Except.error`. -/
def strptimeYmdYear (s : String) : Except String ℤ :=
  match splitDashAux [] s.toList with
  | [ys, ms, ds] =>
    match digitsToNat ys, digitsToNat ms, digitsToNat ds with
    | some y, some mo, some d =>
      if ys.length = 4 ∧ 1 ≤ mo ∧ mo ≤ 12 ∧ 1 ≤ d ∧ d ≤ daysInMonth y mo then
        Except.ok (y : ℤ)
      else Except.error ("ValueError: time data " ++ s ++ " does not match format")
    | _, _, _ => Except.error ("ValueError: time data " ++ s ++ " does not match format")
  | _ => Except.error ("ValueError: time data " ++ s ++ " does not match format")

/-- `r.get("year") or datetime.strptime((r.get("endDate") or
r.get("acceptedDate") or "2000-01-01")[:10], "%Y-%m-%d").year` — Python `or`
treats `0` and `""` as falsy, and the `strptime` call is NOT wrapped in any
try/except, so a missing year combined with an unparseable date string
propagates a `ValueError` out of `normalize_and_quarterize`. -/
def rowFiscalYear (r : RawRow) : Except String ℤ :=
  let fallback :=
    strptimeYmdYear
      (pyTake10 ((pyOrStr r.endDate (pyOrStr r.acceptedDate (some "2000-01-01"))).getD
        "2000-01-01"))
  match r.year with
  | some y => if y = 0 then fallback else Except.ok y
  | none => fallback

/-- The report-collection prelude of `normalize_and_quarterize` (lines
199–232): rows without a truthy `report` are skipped; the fiscal year is
resolved (possibly raising); rows without any of `endDate` / `acceptedDate`
/ `period` are skipped; otherwise a report entry is collected.  An uncaught
exception aborts the whole normalization (`Except.error`). -/
def collectQuarterlyReports : List RawRow → Except String (List ReportRec)
  | [] => Except.ok []
  | r :: rest =>
    if !r.hasReport then collectQuarterlyReports rest
    else
      match rowFiscalYear r with
      | Except.error e => Except.error e
      | Except.ok fy =>
        let q := toQ ((pyOrStr r.quarterLabel (some "Q1")).getD "Q1")
        match pyOrStr r.endDate (pyOrStr r.acceptedDate r.period) with
        | none => collectQuarterlyReports rest
        | some ed =>
          match collectQuarterlyReports rest with
          | Except.error e => Except.error e
          | Except.ok tail =>
            Except.ok ({ fiscalYear := fy, quarter := q, periodEnd := pyTake10 ed } :: tail)

/-! ## Yahoo normalizer (`backend/normalizers/yahoo_normalizer.py`) -/

/-- The Yahoo chart `result[0]` payload as read by `normalize_prices`:
`timestamp = none` models an absent or non-list `timestamp` (the source
returns `[]` for both); the indicator arrays hold each position's value
after `_num_or_null` (`none` for `None`/NaN/Inf/non-numeric). -/
structure ChartData where
  timestamp : Option (List ℤ)
  quote_open : List (Option ℚ)
  quote_high : List (Option ℚ)
  quote_low : List (Option ℚ)
  quote_close : List (Option ℚ)
  quote_volume : List (Option ℚ)
  adjclose : List (Option ℚ)
  deriving Repr

/-- `arr[i] if i < len(arr) else None`, flattening the element's own
nullability. -/
def idxOrNone (l : List (Option ℚ)) (i : ℕ) : Option ℚ := (l.get? i).join

/-- A normalized `PricesHistory` row. -/
structure PriceRec where
  ticker : String
  date : String
  openPrice : Option ℚ
  high : Option ℚ
  low : Option ℚ
  close : ℚ
  close_adj : ℚ
  volume : Option ℚ
  source : String
  as_of_date : String
  deriving Repr

/-- `normalize_prices(ticker, price_data)`: one output row per timestamp
whose date parses AND whose `close` and `close_adj` are both non-null; all
other rows are skipped; an absent/empty timestamp list yields `[]`.
`toYmd` stands for `_to_ymd` (`datetime.utcfromtimestamp` with its
exceptions caught and mapped to `None`); `today` for `date.today()`. -/
def normalizePrices (toYmd : ℤ → Option String) (today : String)
    (ticker : String) (pd : ChartData) : List PriceRec :=
  match pd.timestamp with
  | none => []
  | some ts =>
    if ts.length = 0 then []
    else
      ts.enum.filterMap (fun p =>
        let i := p.1
        match toYmd p.2, idxOrNone pd.quote_close i, idxOrNone pd.adjclose i with
        | some d, some c, some ca =>
          some { ticker := ticker
                 date := d
                 openPrice := idxOrNone pd.quote_open i
                 high := idxOrNone pd.quote_high i
                 low := idxOrNone pd.quote_low i
                 close := c
                 close_adj := ca
                 volume := idxOrNone pd.quote_volume i
                 source := "yahoo"
                 as_of_date := today }
        | _, _, _ => none)

/-- The Yahoo `quoteSummary` fields read by the quoted-fields block of
`build_yahoo_metrics_payload` (yahoo_normalizer.py lines 433–454), each
already passed through `_num_raw` (which unwraps `{raw: ...}`, accepts
finite numbers and numeric strings, and yields `None` otherwise). -/
structure SourceQ where
  price_regularMarketPrice : Option ℚ
  summaryDetail_regularMarketPreviousClose : Option ℚ
  price_marketCap : Option ℚ
  defaultKeyStatistics_sharesOutstanding : Option ℚ
  summaryDetail_forwardPE : Option ℚ
  summaryDetail_trailingPE : Option ℚ
  defaultKeyStatistics_trailingPE : Option ℚ
  defaultKeyStatistics_beta : Option ℚ
  deriving Repr

/-- The quoted fields of the Yahoo metrics payload. -/
structure YahooQuoted where
  price_current : Option ℚ
  market_cap : Option ℚ
  shares_out : Option ℚ
  pe_fwd : Option ℚ
  pe_ttm : Option ℚ
  current_pe : Option ℚ
  beta_5y : Option ℚ
  deriving Repr

/-- The quoted-fields block of `build_yahoo_metrics_payload`: these values
are copied into the metrics upsert payload under the same keys.  In
particular `pe_fwd` is read directly from the vendor's
`summaryDetail.forwardPE` field (line 439), not computed.
(`_pick_num(a, b)` returns the first non-`None` of its arguments.) -/
def yahooQuotedFields (sq : SourceQ) : YahooQuoted :=
  { price_current :=
      sq.price_regularMarketPrice.orElse
        (fun _ => sq.summaryDetail_regularMarketPreviousClose)
    market_cap := sq.price_marketCap
    shares_out := sq.defaultKeyStatistics_sharesOutstanding
    pe_fwd := sq.summaryDetail_forwardPE
    pe_ttm := sq.summaryDetail_trailingPE
    current_pe :=
      sq.summaryDetail_trailingPE.orElse
        (fun _ => sq.defaultKeyStatistics_trailingPE)
    beta_5y := sq.defaultKeyStatistics_beta }

/-- A quoteSummary carrying only a vendor `forwardPE` of 42. -/
def sqForwardOnly : SourceQ :=
  { price_regularMarketPrice := none
    summaryDetail_regularMarketPreviousClose := none
    price_marketCap := none
    defaultKeyStatistics_sharesOutstanding := none
    summaryDetail_forwardPE := some 42
    summaryDetail_trailingPE := none
    defaultKeyStatistics_trailingPE := none
    defaultKeyStatistics_beta := none }

/-- The 4-quarter fixture from the repository's TTM acceptance tests:
net income `[3000, 2800, 2600, 2400]`, diluted shares
`[1000, 1000, 1010, 1010]`, newest first. -/
def mkFixtureQ (ni cfo capex ebit rev sh : ℚ) : QRecord :=
  { revenue := some rev
    net_income := some ni
    cfo := some cfo
    capex := some capex
    ebit := some ebit
    interest_expense := some (-500)
    depreciation := some 1000
    stock_based_compensation := some 200
    shares_diluted := some sh
    cash := some 5000
    total_debt := some 10000
    stockholder_equity := some 30000
    total_assets := some 50000
    shares_outstanding := some sh }

def fixture4Q : List QRecord :=
  [mkFixtureQ 3000 4000 (-1000) 3500 20000 1000,
   mkFixtureQ 2800 3800 (-900) 3200 19000 1000,
   mkFixtureQ 2600 3600 (-850) 3000 18500 1010,
   mkFixtureQ 2400 3400 (-800) 2800 18000 1010]

def fixture3Q : List QRecord := fixture4Q.take 3

/-- The total lens weight of the categories that actually contribute to the
final score: a category counts iff its score is present and its weight is
present and positive. -/
def applicableWeight (scores weights : Category → Option ℚ) : ℚ :=
  (Category.all.map (fun c =>
    match scores c, weights c with
    | some _, some w => if 0 < w then w else 0
    | _, _ => 0)).sum

/-- The weighted score mass of the contributing categories. -/
def applicableScoreSum (scores weights : Category → Option ℚ) : ℚ :=
  (Category.all.map (fun c =>
    match scores c, weights c with
    | some s, some w => if 0 < w then s * w else 0
    | _, _ => 0)).sum

/-- A raw Finnhub quarterly row whose report is present but whose fiscal
year is absent and whose `endDate` is not a parseable date. -/
def badFinnhubRow : RawRow :=
  { hasReport := true
    year := none
    endDate := some "not-a-date"
    acceptedDate := none
    period := none
    quarterLabel := none }

/-- The same malformed date on a row with no report: skipped, no error. -/
def badDateNoReportRow : RawRow :=
  { badFinnhubRow with hasReport := false }

/-- A chart payload with no timestamp list. -/
def chartNoTimestamps : ChartData :=
  { timestamp := none
    quote_open := []
    quote_high := []
    quote_low := []
    quote_close := []
    quote_volume := []
    adjclose := [] }

/-- A two-point chart whose second row is missing its `close`. -/
def chartOneGood : ChartData :=
  { timestamp := some [0, 1]
    quote_open := [some 1, some 2]
    quote_high := [none, none]
    quote_low := [none, none]
    quote_close := [some 5, none]
    quote_volume := [none, none]
    adjclose := [some 6, some 7] }

/-- A metrics dict whose only populated field is an out-of-range
`macrofit_score_0_10 = 15`. -/
def metricsMacroFit15 : Metrics :=
  { num := fun f => if f = "macrofit_score_0_10" then some 15 else none
    founder_led_bool := none
    sector_cyc_tag := none
    as_of_date := none }

/-- All-numeric metrics dict (every field 8) used by the C8 witness. -/
def metricsAll8 : Metrics :=
  { num := fun _ => some 8
    founder_led_bool := none
    sector_cyc_tag := none
    as_of_date := none }

/-! # Claim theorems -/

/-- C4: `validate_eps_forward` returns null exactly when the candidate is
absent or non-positive, or when a positive trailing EPS exists and the
candidate exceeds 3× it; any returned value is the candidate unchanged
(never clamped); the 3× boundary is inclusive; and the three concrete spec
examples hold: `(15, 4) ↦ null`, `(12, 4) ↦ 12`, `(5, null) ↦ 5`. -/
theorem validate_eps_forward_spec :
    (∀ c t, validateEpsForward c t = none ↔
      (c = none ∨ (∃ x, c = some x ∧ x ≤ 0) ∨
        (∃ x y, c = some x ∧ t = some y ∧ 0 < y ∧ 3 * y < x)))
    ∧ (∀ c t x, validateEpsForward c t = some x ↔
      (c = some x ∧ 0 < x ∧ ¬ ∃ y, t = some y ∧ 0 < y ∧ 3 * y < x))
    ∧ validateEpsForward (some 15) (some 4) = none
    ∧ validateEpsForward (some 12) (some 4) = some 12
    ∧ validateEpsForward (some 5) none = some 5 := by
  refine ⟨?_, ?_, ?_, ?_, ?_⟩
  · intro c t
    cases c with
    | none => simp [validateEpsForward]
    | some x =>
      cases t with
      | none =>
        by_cases h : x ≤ 0
        · simp only [validateEpsForward, if_pos h]
          exact ⟨fun _ => Or.inr (Or.inl ⟨x, rfl, h⟩), fun _ => trivial⟩
        · simp only [validateEpsForward, if_neg h]
          constructor
          · intro hc; simp at hc
          · rintro (hc | ⟨x', hx', hle⟩ | ⟨x', y', hx', hy', hpos, hlt⟩)
            · simp at hc
            · obtain rfl := Option.some_inj.mp hx'
              exact absurd hle h
            · simp at hy'
      | some y =>
        by_cases h : x ≤ 0
        · simp only [validateEpsForward, if_pos h]
          exact ⟨fun _ => Or.inr (Or.inl ⟨x, rfl, h⟩), fun _ => trivial⟩
        · by_cases h2 : 0 < y ∧ 3 * y < x
          · simp only [validateEpsForward, if_neg h, if_pos h2]
            exact ⟨fun _ => Or.inr (Or.inr ⟨x, y, rfl, rfl, h2.1, h2.2⟩), fun _ => trivial⟩
          · simp only [validateEpsForward, if_neg h, if_neg h2]
            constructor
            · intro hc; simp at hc
            · rintro (hc | ⟨x', hx', hle⟩ | ⟨x', y', hx', hy', hpos, hlt⟩)
              · simp at hc
              · obtain rfl := Option.some_inj.mp hx'
                exact absurd hle h
              · obtain rfl := Option.some_inj.mp hx'
                obtain rfl := Option.some_inj.mp hy'
                exact absurd ⟨hpos, hlt⟩ h2
  · intro c t x
    cases c with
    | none => simp [validateEpsForward]
    | some v =>
      cases t with
      | none =>
        by_cases h : v ≤ 0
        · simp only [validateEpsForward, if_pos h]
          constructor
          · intro hc; simp at hc
          · rintro ⟨hv, hx, -⟩
            obtain rfl := Option.some_inj.mp hv
            linarith
        · simp only [validateEpsForward, if_neg h]
          constructor
          · intro hc
            obtain rfl := Option.some_inj.mp hc
            exact ⟨rfl, by linarith, by rintro ⟨y, hy, -⟩; simp at hy⟩
          · rintro ⟨hv, -, -⟩
            obtain rfl := Option.some_inj.mp hv
            rfl
      | some y =>
        by_cases h : v ≤ 0
        · simp only [validateEpsForward, if_pos h]
          constructor
          · intro hc; simp at hc
          · rintro ⟨hv, hx, -⟩
            obtain rfl := Option.some_inj.mp hv
            linarith
        · by_cases h2 : 0 < y ∧ 3 * y < v
          · simp only [validateEpsForward, if_neg h, if_pos h2]
            constructor
            · intro hc; simp at hc
            · rintro ⟨hv, hx, hn⟩
              obtain rfl := Option.some_inj.mp hv
              exact absurd ⟨y, rfl, h2.1, h2.2⟩ hn
          · simp only [validateEpsForward, if_neg h, if_neg h2]
            constructor
            · intro hc
              obtain rfl := Option.some_inj.mp hc
              refine ⟨rfl, by linarith, ?_⟩
              rintro ⟨y', hy', hpos, hlt⟩
              obtain rfl := Option.some_inj.mp hy'
              exact h2 ⟨hpos, hlt⟩
            · rintro ⟨hv, -, -⟩
              obtain rfl := Option.some_inj.mp hv
              rfl
  · norm_num [validateEpsForward]
  · norm_num [validateEpsForward]
  · norm_num [validateEpsForward]

/-- C6: recommendation boundaries.  For thresholds in their intended order
(`watch ≤ buy`): BUY iff the score is numeric and `≥ buy` (the boundary
score `buy` itself yields BUY), WATCH iff `watch ≤ score < buy`, AVOID iff
`score < watch`, INSUFFICIENT_DATA iff the score is null. -/
theorem compute_recommendation_boundaries (buy watch : ℚ) (h : watch ≤ buy) :
    (∀ s : Option ℚ,
      (computeRecommendation s buy watch = "BUY" ↔ ∃ v, s = some v ∧ buy ≤ v)
      ∧ (computeRecommendation s buy watch = "WATCH" ↔
          ∃ v, s = some v ∧ watch ≤ v ∧ v < buy)
      ∧ (computeRecommendation s buy watch = "AVOID" ↔ ∃ v, s = some v ∧ v < watch)
      ∧ (computeRecommendation s buy watch = "INSUFFICIENT_DATA" ↔ s = none))
    ∧ computeRecommendation (some buy) buy watch = "BUY" := by
  constructor
  · intro s
    cases s with
    | none => simp [computeRecommendation]
    | some v =>
      simp only [computeRecommendation]
      split_ifs with h1 h2
      · refine ⟨?_, ?_, ?_, ?_⟩ <;> simp_all <;> intros <;> linarith
      · refine ⟨?_, ?_, ?_, ?_⟩ <;> simp_all <;> intros <;> linarith
      · refine ⟨?_, ?_, ?_, ?_⟩ <;> simp_all <;> intros <;> linarith
  · simp [computeRecommendation]

/-- Witness for C6 at `buy = 7`, `watch = 4`, score `7`. -/
theorem compute_recommendation_boundaries_witness :
    computeRecommendation (some 7) 7 4 = "BUY" :=
  (compute_recommendation_boundaries 7 4 (by decide)).2

/-- C5 counterexample.  Two parts of the claim fail on the code:
(1) the Yahoo metrics payload's `pe_fwd` is read directly from the vendor's
`summaryDetail.forwardPE` field — here the payload carries `pe_fwd = 42`
although no price or EPS exists to compute it from; and
(2) `compute_pe_fwd` does not null out a present but non-positive price:
with price `0` and validated forward EPS `2` it returns `0`, not null. -/
theorem pe_fwd_claim_counterexample :
    (yahooQuotedFields sqForwardOnly).pe_fwd = some 42
    ∧ computePeFwd none (some 2) = none
    ∧ computePeFwd (some 0) (some 2) = some 0
    ∧ some (0 : ℚ) ≠ (none : Option ℚ) := by
  refine ⟨rfl, rfl, ?_, by simp⟩
  norm_num [computePeFwd]

/-- C5 (amended): in the deterministic pipeline, the forward PE is always
computed as `compute_pe_fwd(current price, validated forward EPS)` — it is
null whenever the price is missing (non-numeric) or the forward EPS failed
the plausibility guard or is non-positive; a present but non-positive
price is not itself rejected.  (The Yahoo normalizer's metrics payload, in
contrast, reads `pe_fwd` from the vendor field, as the counterexample
shows.) -/
theorem pe_fwd_computed_spec :
    (∀ tk qs prices fwd,
      (runPipelineCore tk qs prices fwd).pe_fwd =
        computePeFwd ((latestPriceRow prices).bind (fun p => p.close_adj))
          (validateEpsForward fwd (runPipelineCore tk qs prices fwd).eps_ttm))
    ∧ (∀ p e, computePeFwd p e = none ↔
        (p = none ∨ e = none ∨ ∃ x, e = some x ∧ x ≤ 0)) := by
  constructor
  · intro tk qs prices fwd
    simp only [runPipelineCore, computePeFwd]
    cases hp : (latestPriceRow prices).bind (fun p => p.close_adj) with
    | none =>
      cases hv : validateEpsForward fwd
        (match (buildTTM qs).1.net_income, (buildTTM qs).1.shares_diluted_avg with
          | some n, some s => if 0 < s then some (n / s) else none
          | _, _ => none) <;> simp [hp, hv]
    | some p =>
      cases hv : validateEpsForward fwd
        (match (buildTTM qs).1.net_income, (buildTTM qs).1.shares_diluted_avg with
          | some n, some s => if 0 < s then some (n / s) else none
          | _, _ => none) with
      | none => simp [hp, hv]
      | some e =>
        simp only [hp, hv]
        by_cases he : e ≤ 0
        · rw [if_neg (by linarith), if_pos he]
        · rw [if_pos (by linarith), if_neg he]
  · intro p e
    cases p with
    | none => simp [computePeFwd]
    | some pv =>
      cases e with
      | none => simp [computePeFwd]
      | some ev =>
        simp only [computePeFwd]
        by_cases he : ev ≤ 0
        · simp only [if_pos he]
          exact ⟨fun _ => Or.inr (Or.inr ⟨ev, rfl, he⟩), fun _ => trivial⟩
        · simp only [if_neg he]
          constructor
          · intro hc; simp at hc
          · rintro (hc | hc | ⟨x, hx, hle⟩)
            · simp at hc
            · simp at hc
            · obtain rfl := Option.some_inj.mp hx
              exact absurd hle he

/-! Helper lemmas about counting the present values of an option list. -/

lemma filterMap_id_length_le {α : Type} (l : List (Option α)) :
    (l.filterMap id).length ≤ l.length := by
  induction l with
  | nil => simp
  | cons o t ih => cases o <;> simp [List.filterMap_cons] <;> omega

lemma filterMap_id_length_eq_iff {α : Type} (l : List (Option α)) :
    (l.filterMap id).length = l.length ↔ ∀ o ∈ l, o.isSome := by
  induction l with
  | nil => simp
  | cons o t ih =>
    cases o with
    | none =>
      simp only [List.filterMap_cons, List.length_cons, id]
      constructor
      · intro h
        have := filterMap_id_length_le t
        omega
      · intro h
        have : (none : Option α).isSome = true := h none (by simp)
        simp at this
    | some a =>
      simp [List.filterMap_cons, ih]

/-- The all-4-present characterization of `ttm_sum` over `quarterly[:4]`. -/
lemma ttmSum_take4_eq (qs : List QRecord) (get : QRecord → Option ℚ) :
    ttmSum (qs.take 4) get =
      if ((qs.take 4).length = 4 ∧ ∀ q ∈ qs.take 4, (get q).isSome)
      then some ((((qs.take 4).map get).filterMap id).sum) else none := by
  unfold ttmSum
  by_cases h : ((qs.take 4).length = 4 ∧ ∀ q ∈ qs.take 4, (get q).isSome)
  · rw [if_pos h, if_pos]
    have hall : ∀ o ∈ (qs.take 4).map get, o.isSome := by
      intro o ho
      obtain ⟨q, hq, rfl⟩ := List.mem_map.mp ho
      exact h.2 q hq
    rw [(filterMap_id_length_eq_iff _).mpr hall, List.length_map, h.1]
  · rw [if_neg h, if_neg]
    intro hlen
    apply h
    have hle : (((qs.take 4).map get).filterMap id).length ≤ (qs.take 4).length := by
      have := filterMap_id_length_le ((qs.take 4).map get)
      simpa using this
    have htk : (qs.take 4).length ≤ 4 := by
      simp [List.length_take]
    have hlen4 : (qs.take 4).length = 4 := by omega
    refine ⟨hlen4, ?_⟩
    intro q hq
    have hall := (filterMap_id_length_eq_iff ((qs.take 4).map get)).mp
      (by rw [List.length_map]; omega)
    exact hall (get q) (List.mem_map.mpr ⟨q, hq, rfl⟩)

/-- The all-4-present characterization of `ttm_avg` over `quarterly[:4]`. -/
lemma ttmAvg_take4_eq (qs : List QRecord) (get : QRecord → Option ℚ) :
    ttmAvg (qs.take 4) get =
      if ((qs.take 4).length = 4 ∧ ∀ q ∈ qs.take 4, (get q).isSome)
      then some ((((qs.take 4).map get).filterMap id).sum / 4) else none := by
  unfold ttmAvg
  have h := ttmSum_take4_eq qs get
  unfold ttmSum at h
  by_cases hc : ((qs.take 4).length = 4 ∧ ∀ q ∈ qs.take 4, (get q).isSome)
  · rw [if_pos hc] at h ⊢
    rw [if_pos]
    by_contra hne
    simp_all
  · rw [if_neg hc] at h ⊢
    rw [if_neg]
    by_contra hne
    simp_all

/-- C2: every TTM flow field built by `build_ttm` is the sum of that field
over the 4 most recent quarters exactly when all 4 values are present, and
null otherwise; `shares_diluted_avg` is the 4-quarter average under the
same rule; the pipeline's `eps_ttm` is `net_income_ttm / shares_diluted_avg`
(null when the denominator is null or not positive); and on the repository's
4-quarter fixture `eps_ttm = 10800 / 1005` exactly, which equals
`sum(net_income) / avg(shares)` (so it matches to within 0.01). -/
theorem build_ttm_eps_spec :
    (∀ (qs : List QRecord) (get : QRecord → Option ℚ),
      ttmSum (qs.take 4) get =
        if ((qs.take 4).length = 4 ∧ ∀ q ∈ qs.take 4, (get q).isSome)
        then some ((((qs.take 4).map get).filterMap id).sum) else none)
    ∧ (∀ (qs : List QRecord) (get : QRecord → Option ℚ),
      ttmAvg (qs.take 4) get =
        if ((qs.take 4).length = 4 ∧ ∀ q ∈ qs.take 4, (get q).isSome)
        then some ((((qs.take 4).map get).filterMap id).sum / 4) else none)
    ∧ (∀ qs : List QRecord,
        (buildTTM qs).1.revenue = ttmSum (qs.take 4) (fun q => q.revenue)
        ∧ (buildTTM qs).1.net_income = ttmSum (qs.take 4) (fun q => q.net_income)
        ∧ (buildTTM qs).1.cfo = ttmSum (qs.take 4) (fun q => q.cfo)
        ∧ (buildTTM qs).1.capex = ttmSum (qs.take 4) (fun q => q.capex)
        ∧ (buildTTM qs).1.ebit = ttmSum (qs.take 4) (fun q => q.ebit)
        ∧ (buildTTM qs).1.interest_expense =
            ttmSum (qs.take 4) (fun q => q.interest_expense)
        ∧ (buildTTM qs).1.depreciation = ttmSum (qs.take 4) (fun q => q.depreciation)
        ∧ (buildTTM qs).1.sbc =
            ttmSum (qs.take 4) (fun q => q.stock_based_compensation)
        ∧ (buildTTM qs).1.shares_diluted_avg =
            ttmAvg (qs.take 4) (fun q => q.shares_diluted))
    ∧ (∀ tk qs prices fwd,
        (runPipelineCore tk qs prices fwd).eps_ttm =
          match (buildTTM qs).1.net_income, (buildTTM qs).1.shares_diluted_avg with
          | some n, some s => if 0 < s then some (n / s) else none
          | _, _ => none)
    ∧ (runPipelineCore "TEST" fixture4Q [] none).eps_ttm = some (10800 / 1005)
    ∧ (10800 : ℚ) / 1005 =
        (3000 + 2800 + 2600 + 2400) / ((1000 + 1000 + 1010 + 1010) / 4) := by
  refine ⟨ttmSum_take4_eq, ttmAvg_take4_eq, ?_, ?_, ?_, by norm_num⟩
  · intro qs
    exact ⟨rfl, rfl, rfl, rfl, rfl, rfl, rfl, rfl, rfl⟩
  · intro tk qs prices fwd
    rfl
  · show (runPipelineCore "TEST" fixture4Q [] none).eps_ttm = some (10800 / 1005)
    simp only [runPipelineCore, buildTTM, fixture4Q, mkFixtureQ, ttmSum, ttmAvg]
    norm_num [List.filterMap_cons]

/-- C3: for fewer than 4 quarterly records, `check_ttm_coverage` reports the
record count, `sufficient = false` (and in general `sufficient` is true iff
the count is at least 4), the per-field presence counts, at least one
warning, and exactly the nine downstream null fields; and the pipeline on
exactly 3 quarterly records sets the partial-TTM flag and a null `eps_ttm`. -/
theorem check_ttm_coverage_spec :
    (∀ (qs : List QRecord) (tk : String),
      ((checkTTMCoverage qs tk).sufficient = true ↔ 4 ≤ qs.length))
    ∧ (∀ (qs : List QRecord) (tk : String), qs.length < 4 →
        (checkTTMCoverage qs tk).quarter_count = qs.length
        ∧ (checkTTMCoverage qs tk).sufficient = false
        ∧ (checkTTMCoverage qs tk).field_coverage =
            ttmFlowFields.map
              (fun f => (f, ((qs.take 4).filter
                (fun q => (q.fieldNum f).isSome)).length))
        ∧ (checkTTMCoverage qs tk).warnings ≠ []
        ∧ (checkTTMCoverage qs tk).null_fields =
            ["eps_ttm", "pe_ttm", "fcf_ttm", "cfo_ttm", "capex_ttm",
             "ebit_ttm", "net_income_ttm", "revenue_ttm", "ebitda_ttm"])
    ∧ (∀ (tk : String) (qs : List QRecord) prices fwd, qs.length = 3 →
        (runPipelineCore tk qs prices fwd).ttm_insufficient = true
        ∧ (runPipelineCore tk qs prices fwd).eps_ttm = none) := by
  have hsuff : ∀ (qs : List QRecord) (tk : String),
      ((checkTTMCoverage qs tk).sufficient = true ↔ 4 ≤ qs.length) := by
    intro qs tk
    by_cases h : 4 ≤ (qs.take 4).length
    · have : 4 ≤ qs.length := by
        have := List.length_take 4 qs
        omega
      simp [checkTTMCoverage, if_pos h, this]
    · have : ¬ 4 ≤ qs.length := by
        have := List.length_take 4 qs
        omega
      simp [checkTTMCoverage, if_neg h, this]
  refine ⟨hsuff, ?_, ?_⟩
  · intro qs tk hlt
    have hn : ¬ 4 ≤ qs.length := by omega
    have hmin : 4 ⊓ qs.length = qs.length := by omega
    refine ⟨?_, ?_, ?_, ?_, ?_⟩
    · simp [checkTTMCoverage, hn, hmin]
    · simp [checkTTMCoverage, hn]
    · simp [checkTTMCoverage, hn]
    · simp [checkTTMCoverage, hn]
    · simp [checkTTMCoverage, hn]
  · intro tk qs prices fwd hlen
    constructor
    · have := (hsuff qs tk)
      have hns : ¬ ((checkTTMCoverage qs tk).sufficient = true) := by
        rw [this]; omega
      simp only [runPipelineCore]
      simp [Bool.not_eq_true] at hns
      simp [hns]
    · have hni : (buildTTM qs).1.net_income = none := by
        show ttmSum (qs.take 4) (fun q => q.net_income) = none
        rw [ttmSum_take4_eq]
        rw [if_neg]
        rintro ⟨hl, -⟩
        rw [List.length_take] at hl
        omega
      simp only [runPipelineCore]
      rw [hni]

lemma finalScoreStepFn_eq (scores weights : Category → Option ℚ)
    (acc : ℚ × ℚ) (c : Category) :
    finalScoreStepFn scores weights acc c =
    (acc.1 + match scores c, weights c with
       | some s, some w => if 0 < w then s * w else 0
       | _, _ => 0,
     acc.2 + match scores c, weights c with
       | some _, some w => if 0 < w then w else 0
       | _, _ => 0) := by
  unfold finalScoreStepFn
  cases scores c with
  | none => simp
  | some s =>
    cases weights c with
    | none => simp
    | some w => by_cases h : 0 < w <;> simp [h]

lemma computeFinalScore_foldl (scores weights : Category → Option ℚ)
    (l : List Category) (a b : ℚ) :
    l.foldl (finalScoreStepFn scores weights) (a, b) =
    (a + (l.map (fun c =>
        match scores c, weights c with
        | some s, some w => if 0 < w then s * w else 0
        | _, _ => 0)).sum,
     b + (l.map (fun c =>
        match scores c, weights c with
        | some _, some w => if 0 < w then w else 0
        | _, _ => 0)).sum) := by
  induction l generalizing a b with
  | nil => simp
  | cons c t ih =>
    rw [List.foldl_cons, finalScoreStepFn_eq, ih]
    simp [add_assoc]

/-- C7: the final score is the weighted average of the category scores over
the lens weights, with null-scored categories excluded from both the
numerator and the denominator, and is null when the total applicable weight
is 0.  With lens weights `{valuation: 0.5, quality: 0.5}` and scores
`{valuation: 8, quality: 6}` the final score is 7; with quality null it is
exactly 8 (a missing category is never treated as 0). -/
theorem compute_final_score_spec :
    (∀ scores weights : Category → Option ℚ,
      computeFinalScore scores weights =
        if 0 < applicableWeight scores weights
        then some (applicableScoreSum scores weights / applicableWeight scores weights)
        else none)
    ∧ computeFinalScore
        (fun c => match c with
          | .valuation => some 8 | .quality => some 6 | _ => none)
        (fun c => match c with
          | .valuation => some (1/2) | .quality => some (1/2) | _ => none) = some 7
    ∧ computeFinalScore
        (fun c => match c with
          | .valuation => some 8 | _ => none)
        (fun c => match c with
          | .valuation => some (1/2) | .quality => some (1/2) | _ => none) = some 8 := by
  refine ⟨?_, ?_, ?_⟩
  · intro scores weights
    unfold computeFinalScore applicableWeight applicableScoreSum
    rw [computeFinalScore_foldl]
    simp
  · simp only [computeFinalScore, finalScoreStepFn, Category.all,
      List.foldl_cons, List.foldl_nil]
    norm_num
  · simp only [computeFinalScore, finalScoreStepFn, Category.all,
      List.foldl_cons, List.foldl_nil]
    norm_num

/-- C1: `compute_snapshot` is deterministic for fixed inputs (the embedding
is a pure function; `today` stands for `date.today()`, which only enters
when the metrics dict carries no `as_of_date`, and the source additionally
emits the nondeterministic `id`/`created_at` metadata outside every hashed
or score field); the hash pre-image, final score and recommendation are
invariant under ANY change of `mos_pct` and `resolution_warnings` (hence
across `mos_pct ∈ {+80, −80, null}`), while `mos_signal` is `"+"`, `"-"`,
`null` at those three values; and the hash pre-image is exactly
{ticker, lens id, lens name, score version, as-of date, final score rounded
to 6 decimals, category scores rounded to 6 decimals, recommendation} —
a structure with no confidence, contributor, warning or MOS field. -/
theorem compute_snapshot_spec :
    ∀ (lg : ℚ → ℚ) (today tk : String) (lens : Lens) (m : Metrics)
      (mos mos1 mos2 : Option ℚ) (w w1 w2 : List String),
      (computeSnapshot lg today tk lens m mos w MOS_NEUTRAL_BAND =
        computeSnapshot lg today tk lens m mos w MOS_NEUTRAL_BAND)
      ∧ ((computeSnapshot lg today tk lens m mos1 w1 MOS_NEUTRAL_BAND).hash_payload =
          (computeSnapshot lg today tk lens m mos2 w2 MOS_NEUTRAL_BAND).hash_payload)
      ∧ ((computeSnapshot lg today tk lens m mos1 w1 MOS_NEUTRAL_BAND).final_score =
          (computeSnapshot lg today tk lens m mos2 w2 MOS_NEUTRAL_BAND).final_score)
      ∧ ((computeSnapshot lg today tk lens m mos1 w1 MOS_NEUTRAL_BAND).recommendation =
          (computeSnapshot lg today tk lens m mos2 w2 MOS_NEUTRAL_BAND).recommendation)
      ∧ (computeSnapshot lg today tk lens m (some 80) w MOS_NEUTRAL_BAND).mos_signal =
          some "+"
      ∧ (computeSnapshot lg today tk lens m (some (-80)) w MOS_NEUTRAL_BAND).mos_signal =
          some "-"
      ∧ (computeSnapshot lg today tk lens m none w MOS_NEUTRAL_BAND).mos_signal = none
      ∧ (computeSnapshot lg today tk lens m mos w MOS_NEUTRAL_BAND).hash_payload =
          { ticker := tk
            lens_id := lens.id
            lens_name := lens.name
            score_version := SCORE_VERSION
            as_of_date := m.as_of_date.getD today
            final_score :=
              (computeFinalScore (computeCategoryScores lg m) lens.weights).map
                (roundTo 6)
            category_scores :=
              fun c => (computeCategoryScores lg m c).map (roundTo 6)
            recommendation :=
              computeRecommendation
                (computeFinalScore (computeCategoryScores lg m) lens.weights)
                (match lens.buyThreshold with
                  | some b => if b = 0 then 13/2 else b
                  | none => 13/2)
                (match lens.watchThreshold with
                  | some wt => if wt = 0 then 9/2 else wt
                  | none => 9/2) } := by
  intro lg today tk lens m mos mos1 mos2 w w1 w2
  refine ⟨rfl, rfl, rfl, rfl, ?_, ?_, rfl, rfl⟩
  · show computeMosSignal (some 80) MOS_NEUTRAL_BAND = some "+"
    norm_num [computeMosSignal, MOS_NEUTRAL_BAND]
  · show computeMosSignal (some (-80)) MOS_NEUTRAL_BAND = some "-"
    norm_num [computeMosSignal, MOS_NEUTRAL_BAND]

/-- C9 counterexample.  The claim says a quarter's per-quarter value is null
whenever either of the two cumulative values is missing.  The code instead
differences against the last *seen* YTD value (default `0.0`): with Q1's
YTD missing and Q2's YTD = 100, the code emits `100` for Q2 (100 − 0),
where the claim demands null. -/
theorem ytd_differencing_counterexample :
    quarterizeFlow [(1, none), (2, some 100)] = [none, some 100]
    ∧ specQuarterize [(1, none), (2, some 100)] = [none, none]
    ∧ quarterizeFlow [(1, none), (2, some 100)] ≠
        specQuarterize [(1, none), (2, some 100)] := by
  have hcode : quarterizeFlow [(1, none), (2, some 100)] = [none, some 100] := by
    norm_num [quarterizeFlow, quarterizeFlowAux]
  refine ⟨hcode, rfl, ?_⟩
  intro h
  rw [hcode, specQuarterize] at h
  simp [specQuarterizeAux] at h

lemma quarterize_all_present (l : List (ℕ × Option ℚ)) (prev : Option ℚ)
    (hall : ∀ p ∈ l, p.2.isSome = true)
    (hok : prev.isSome = true ∨ ∀ p ∈ l.take 1, p.1 = 1) :
    quarterizeFlowAux prev l = specQuarterizeAux prev l := by
  induction l generalizing prev with
  | nil => rfl
  | cons p t ih =>
    obtain ⟨qn, oy⟩ := p
    have hsome : oy.isSome = true := hall (qn, oy) (by simp)
    obtain ⟨y, rfl⟩ := Option.isSome_iff_exists.mp hsome
    have htail : quarterizeFlowAux (some y) t = specQuarterizeAux (some y) t :=
      ih (some y) (fun q hq => hall q (List.mem_cons_of_mem _ hq)) (Or.inl rfl)
    by_cases h1 : qn = 1
    · subst h1
      simp [quarterizeFlowAux, specQuarterizeAux, htail]
    · have hprev : prev.isSome = true := by
        rcases hok with h | h
        · exact h
        · exact absurd (h (qn, some y) (by simp)) h1
      obtain ⟨b, rfl⟩ := Option.isSome_iff_exists.mp hprev
      simp [quarterizeFlowAux, specQuarterizeAux, h1, htail]

/-- C9 (amended): within a fiscal year (quarters in quarter order, fields
and fiscal years processed independently), a quarter whose own YTD value is
missing gets a null per-quarter value and does not advance the running YTD
state; a present quarter-1 YTD is emitted as-is; a present YTD at quarter
N > 1 is differenced against the most recently seen YTD of the year
(`0.0` if none was seen) — NOT nulled when the previous quarter's YTD is
missing.  When every quarter's YTD is present (and the year starts at Q1),
this coincides with the claim's differencing
(Q1 = YTD, Qn = YTD_n − YTD_{n−1}). -/
theorem ytd_differencing_spec :
    (∀ (prev : Option ℚ) (qn : ℕ) rest,
      quarterizeFlowAux prev ((qn, none) :: rest) =
        none :: quarterizeFlowAux prev rest)
    ∧ (∀ (prev : Option ℚ) (y : ℚ) rest,
      quarterizeFlowAux prev ((1, some y) :: rest) =
        some y :: quarterizeFlowAux (some y) rest)
    ∧ (∀ (prev : Option ℚ) (qn : ℕ) (y : ℚ) rest, qn ≠ 1 →
      quarterizeFlowAux prev ((qn, some y) :: rest) =
        some (y - prev.getD 0) :: quarterizeFlowAux (some y) rest)
    ∧ (∀ l : List (ℕ × Option ℚ),
        (∀ p ∈ l, p.2.isSome = true) → (∀ p ∈ l.take 1, p.1 = 1) →
        quarterizeFlow l = specQuarterize l)
    ∧ (∀ years, quarterizeYears years = years.map quarterizeFlow) := by
  refine ⟨fun prev qn rest => rfl, fun prev y rest => by
      simp [quarterizeFlowAux], ?_, ?_, fun years => rfl⟩
  · intro prev qn y rest h
    simp [quarterizeFlowAux, if_neg h]
  · intro l hall hhead
    exact quarterize_all_present l none hall (Or.inr hhead)

/-- Witness for C9 on a fully-present fiscal year. -/
theorem ytd_differencing_spec_witness :
    quarterizeFlow [(1, some 10), (2, some 30), (3, some 60), (4, some 100)] =
      specQuarterize [(1, some 10), (2, some 30), (3, some 60), (4, some 100)] :=
  ytd_differencing_spec.2.2.2.1
    [(1, some 10), (2, some 30), (3, some 60), (4, some 100)]
    (by decide) (by decide)

/-- C10: the claim ("normalizers never raise on a single malformed row, for
every input payload, including rows with unparseable dates") fails on the
code: a quarterly row that carries a report but no fiscal year and an
unparseable `endDate` makes `normalize_and_quarterize` evaluate
`datetime.strptime("not-a-date"[:10], "%Y-%m-%d")` outside any try/except,
which raises `ValueError` and aborts the whole normalization.  The
skip-and-proceed policy does hold for the malformations the code guards:
rows without a report (even with the same bad date) are skipped, empty
input normalizes to an empty list, `normalize_prices` returns `[]` for a
missing timestamp list, and a price row lacking `close` is skipped while
the surrounding rows are kept. -/
theorem normalizer_malformed_row_spec :
    collectQuarterlyReports [badFinnhubRow] =
      Except.error "ValueError: time data not-a-date does not match format"
    ∧ collectQuarterlyReports [] = Except.ok []
    ∧ collectQuarterlyReports [badDateNoReportRow] = Except.ok []
    ∧ normalizePrices (fun t => if t = 0 then some "2024-01-01" else some "2024-01-02")
        "2024-02-02" "T" chartNoTimestamps = []
    ∧ normalizePrices (fun t => if t = 0 then some "2024-01-01" else some "2024-01-02")
        "2024-02-02" "T" chartOneGood =
        [{ ticker := "T", date := "2024-01-01", openPrice := some 1, high := none,
           low := none, close := 5, close_adj := 6, volume := none,
           source := "yahoo", as_of_date := "2024-02-02" }] := by
  refine ⟨?_, rfl, rfl, rfl, ?_⟩
  · rfl
  · rfl

/-! Bounds machinery for the category scorers (claim C8). -/

lemma clamp10_nonneg (x : ℚ) : 0 ≤ clamp10 x := le_max_left 0 _

lemma clamp10_le (x : ℚ) : clamp10 x ≤ 10 :=
  max_le (by norm_num) (min_le_left 10 x)

lemma clamp10_bounds (x : ℚ) : 0 ≤ clamp10 x ∧ clamp10 x ≤ 10 :=
  ⟨clamp10_nonneg x, clamp10_le x⟩

lemma clamp01_nonneg (x : ℚ) : 0 ≤ clamp01 x := le_max_left 0 _

lemma clamp01_le_one (x : ℚ) : clamp01 x ≤ 1 :=
  max_le (by norm_num) (min_le_left 1 x)

lemma ten_clamp01_bounds (x : ℚ) : 0 ≤ 10 * clamp01 x ∧ 10 * clamp01 x ≤ 10 := by
  have h1 := clamp01_nonneg x
  have h2 := clamp01_le_one x
  constructor <;> nlinarith

lemma wnumTerm_some (v w : ℚ) : wnumTerm (some v, w) = v * w := rfl

lemma wnumTerm_none (w : ℚ) : wnumTerm (none, w) = 0 := rfl

lemma wdenTerm_some (v w : ℚ) : wdenTerm (some v, w) = w := rfl

lemma wdenTerm_none (w : ℚ) : wdenTerm (none, w) = 0 := rfl

lemma wpairs_bounds (pairs : List (Option ℚ × ℚ))
    (h : ∀ p ∈ pairs, (∀ v, p.1 = some v → 0 ≤ v ∧ v ≤ 10) ∧ 0 ≤ p.2) :
    0 ≤ (pairs.map wnumTerm).sum
    ∧ (pairs.map wnumTerm).sum ≤ 10 * (pairs.map wdenTerm).sum
    ∧ 0 ≤ (pairs.map wdenTerm).sum := by
  induction pairs with
  | nil => simp
  | cons p t ih =>
    have hhead := h p (by simp)
    have htail : ∀ q ∈ t, (∀ v, q.1 = some v → 0 ≤ v ∧ v ≤ 10) ∧ 0 ≤ q.2 :=
      fun q hq => h q (List.mem_cons_of_mem _ hq)
    obtain ⟨ih1, ih2, ih3⟩ := ih htail
    obtain ⟨o, w⟩ := p
    cases o with
    | none =>
      simp only [List.map_cons, List.sum_cons, wnumTerm_none, wdenTerm_none]
      refine ⟨by linarith, by linarith, by linarith⟩
    | some v =>
      have hv := hhead.1 v rfl
      have hw : 0 ≤ w := hhead.2
      simp only [List.map_cons, List.sum_cons, wnumTerm_some, wdenTerm_some]
      refine ⟨?_, ?_, ?_⟩
      · have : 0 ≤ v * w := mul_nonneg hv.1 hw
        linarith
      · have : v * w ≤ 10 * w := by nlinarith [hv.2]
        linarith
      · linarith

/-- `_weighted_avg` maps sub-scores in `[0, 10]` (with nonnegative weights)
back into `[0, 10]`. -/
lemma weightedAvg_bounds (subs : List (Option ℚ)) (weights : List ℚ)
    (hs : ∀ o ∈ subs, ∀ v, o = some v → 0 ≤ v ∧ v ≤ 10)
    (hw : ∀ w ∈ weights, 0 ≤ w) :
    ∀ r, weightedAvg subs weights = some r → 0 ≤ r ∧ r ≤ 10 := by
  intro r hr
  unfold weightedAvg at hr
  set pairs := subs.zip weights with hpairs
  have hmem : ∀ p ∈ pairs, (∀ v, p.1 = some v → 0 ≤ v ∧ v ≤ 10) ∧ 0 ≤ p.2 := by
    intro p hp
    obtain ⟨h1, h2⟩ := List.of_mem_zip hp
    exact ⟨hs p.1 h1, hw p.2 h2⟩
  obtain ⟨hn0, hn10, hd0⟩ := wpairs_bounds pairs hmem
  by_cases hden : 0 < (pairs.map wdenTerm).sum
  · rw [if_pos hden] at hr
    obtain rfl := Option.some_inj.mp hr
    constructor
    · exact div_nonneg hn0 (le_of_lt hden)
    · rw [div_le_iff hden]
      linarith
  · rw [if_neg hden] at hr
    simp at hr

/-- Bounds for an `Option.map`-shaped sub-score. -/
lemma omap_bounds (o : Option ℚ) (f : ℚ → ℚ)
    (hf : ∀ x, 0 ≤ f x ∧ f x ≤ 10) :
    ∀ v, o.map f = some v → 0 ≤ v ∧ v ≤ 10 := by
  intro v h
  cases o with
  | none => simp at h
  | some x =>
    rw [Option.map_some'] at h
    obtain rfl := Option.some_inj.mp h
    exact hf x

lemma cycScore_bounds (s : String) : 0 ≤ cycScore s ∧ cycScore s ≤ 10 := by
  unfold cycScore
  split_ifs <;> norm_num

lemma ite_some_none_bounds {c : Prop} [Decidable c] (X : ℚ)
    (h : 0 ≤ X ∧ X ≤ 10) :
    ∀ v, (if c then some X else none) = some v → 0 ≤ v ∧ v ≤ 10 := by
  intro v hv
  by_cases hc : c
  · rw [if_pos hc] at hv
    exact (Option.some_inj.mp hv) ▸ h
  · rw [if_neg hc] at hv
    simp at hv

lemma ite_none_some_bounds {c : Prop} [Decidable c] (X : ℚ)
    (h : 0 ≤ X ∧ X ≤ 10) :
    ∀ v, (if c then none else some X) = some v → 0 ≤ v ∧ v ≤ 10 := by
  intro v hv
  by_cases hc : c
  · rw [if_pos hc] at hv
    simp at hv
  · rw [if_neg hc] at hv
    exact (Option.some_inj.mp hv) ▸ h

lemma scoreValuation_bounds (m : Metrics) :
    ∀ v, scoreValuation m = some v → 0 ≤ v ∧ v ≤ 10 := by
  intro v hv
  simp only [scoreValuation] at hv
  refine weightedAvg_bounds _ _ ?_ ?_ v hv
  · intro o ho
    simp only [List.mem_cons, List.not_mem_nil, or_false] at ho
    rcases ho with rfl | rfl | rfl | rfl | rfl
    · exact omap_bounds _ _ (fun p => by split_ifs <;> norm_num)
    · exact omap_bounds _ _ (fun p => by split_ifs <;> norm_num)
    · exact omap_bounds _ _ (fun p => by split_ifs <;> norm_num)
    · exact omap_bounds _ _ (fun p => by split_ifs <;> norm_num)
    · intro w hw
      revert hw
      rcases m.num "pe_ttm" with _ | t <;>
        rcases m.num "pe_5y_low" with _ | lo <;>
        rcases m.num "pe_5y_high" with _ | hi <;>
        intro hw <;>
        first
          | exact ite_some_none_bounds _ (ten_clamp01_bounds _) w hw
          | simp at hw
  · intro w hw
    simp only [List.mem_cons, List.not_mem_nil, or_false] at hw
    rcases hw with rfl | rfl | rfl | rfl | rfl <;> norm_num

lemma scoreQuality_bounds (m : Metrics) :
    ∀ v, scoreQuality m = some v → 0 ≤ v ∧ v ≤ 10 := by
  intro v hv
  simp only [scoreQuality] at hv
  refine weightedAvg_bounds _ _ ?_ ?_ v hv
  · intro o ho
    simp only [List.mem_cons, List.not_mem_nil, or_false] at ho
    rcases ho with rfl | rfl | rfl | rfl | rfl
    · exact omap_bounds _ _ (fun x => clamp10_bounds _)
    · exact omap_bounds _ _ (fun x => clamp10_bounds _)
    · exact ite_none_some_bounds _ (clamp10_bounds _)
    · exact omap_bounds _ _ (fun x => clamp10_bounds _)
    · exact omap_bounds _ _ (fun x => clamp10_bounds _)
  · intro w hw
    simp only [List.mem_cons, List.not_mem_nil, or_false] at hw
    rcases hw with rfl | rfl | rfl | rfl | rfl <;> norm_num

lemma scoreCapitalAllocation_bounds (lg : ℚ → ℚ) (m : Metrics) :
    ∀ v, scoreCapitalAllocation lg m = some v → 0 ≤ v ∧ v ≤ 10 := by
  intro v hv
  simp only [scoreCapitalAllocation] at hv
  refine weightedAvg_bounds _ _ ?_ ?_ v hv
  · intro o ho
    simp only [List.mem_cons, List.not_mem_nil, or_false] at ho
    rcases ho with rfl | rfl | rfl
    · exact omap_bounds _ _ (fun p => by split_ifs <;> norm_num)
    · intro w hw
      revert hw
      rcases m.num "interest_coverage_x" with _ | c <;> intro hw
      · simp at hw
      · exact ite_some_none_bounds _ (clamp10_bounds _) w hw
    · intro w hw
      revert hw
      rcases m.num "ebit_t" with _ | a <;>
        rcases m.num "ebit_t3" with _ | a3 <;>
        rcases m.num "invcap_t" with _ | i <;>
        rcases m.num "invcap_t3" with _ | i3 <;>
        intro hw <;>
        first
          | exact ite_some_none_bounds _ (clamp10_bounds _) w hw
          | simp at hw
  · intro w hw
    simp only [List.mem_cons, List.not_mem_nil, or_false] at hw
    rcases hw with rfl | rfl | rfl <;> norm_num

lemma scoreGrowth_bounds (m : Metrics) :
    ∀ v, scoreGrowth m = some v → 0 ≤ v ∧ v ≤ 10 := by
  intro v hv
  simp only [scoreGrowth] at hv
  refine weightedAvg_bounds _ _ ?_ ?_ v hv
  · intro o ho
    simp only [List.mem_cons, List.not_mem_nil, or_false] at ho
    rcases ho with rfl | rfl | rfl | rfl
    · exact omap_bounds _ _ (fun p => by split_ifs <;> norm_num)
    · exact omap_bounds _ _ (fun p => by split_ifs <;> norm_num)
    · intro w hw
      revert hw
      rcases m.num "eps_cagr_5y_pct" with _ | e5 <;>
        rcases m.num "eps_cagr_3y_pct" with _ | e3 <;>
        rcases m.num "revenue_cagr_5y_pct" with _ | r5 <;>
        rcases m.num "revenue_cagr_3y_pct" with _ | r3 <;>
        intro hw <;>
        first
          | exact (Option.some_inj.mp hw) ▸ clamp10_bounds _
          | simp at hw
    · exact omap_bounds _ _ (fun x => ten_clamp01_bounds _)
  · intro w hw
    simp only [List.mem_cons, List.not_mem_nil, or_false] at hw
    rcases hw with rfl | rfl | rfl | rfl <;> norm_num

lemma scoreMoat_bounds (m : Metrics)
    (hmoat : ∀ v, m.num "moat_score_0_10" = some v → 0 ≤ v ∧ v ≤ 10) :
    ∀ v, scoreMoat m = some v → 0 ≤ v ∧ v ≤ 10 := by
  intro v hv
  simp only [scoreMoat] at hv
  refine weightedAvg_bounds _ _ ?_ ?_ v hv
  · intro o ho
    simp only [List.mem_cons, List.not_mem_nil, or_false] at ho
    rcases ho with rfl | rfl | rfl
    · exact hmoat
    · exact omap_bounds _ _ (fun x => ten_clamp01_bounds _)
    · refine omap_bounds _ _ (fun i => ?_)
      constructor
      · refine le_min (by norm_num) ?_
        have h1 := clamp10_nonneg (5 * min 1 (i / 5))
        split_ifs <;> linarith
      · exact min_le_left _ _
  · intro w hw
    simp only [List.mem_cons, List.not_mem_nil, or_false] at hw
    rcases hw with rfl | rfl | rfl <;> norm_num

lemma scoreRisk_bounds (m : Metrics)
    (hrisk : ∀ v, m.num "riskdownside_score_0_10" = some v → 0 ≤ v ∧ v ≤ 10) :
    ∀ v, scoreRisk m = some v → 0 ≤ v ∧ v ≤ 10 := by
  intro v hv
  simp only [scoreRisk] at hv
  refine weightedAvg_bounds _ _ ?_ ?_ v hv
  · intro o ho
    simp only [List.mem_cons, List.not_mem_nil, or_false] at ho
    rcases ho with rfl | rfl | rfl | rfl | rfl | rfl
    · exact hrisk
    · exact omap_bounds _ _ (fun x => clamp10_bounds _)
    · exact omap_bounds _ _ (fun p => by split_ifs <;> norm_num)
    · exact omap_bounds _ _ (fun x => clamp10_bounds _)
    · exact omap_bounds _ _ (fun p => by split_ifs <;> norm_num)
    · intro w hw
      obtain rfl := Option.some_inj.mp hw
      exact cycScore_bounds _
  · intro w hw
    simp only [List.mem_cons, List.not_mem_nil, or_false] at hw
    rcases hw with rfl | rfl | rfl | rfl | rfl | rfl <;> norm_num

lemma scoreDilution_bounds (m : Metrics) :
    ∀ v, scoreDilution m = some v → 0 ≤ v ∧ v ≤ 10 := by
  intro v hv
  simp only [scoreDilution] at hv
  refine weightedAvg_bounds _ _ ?_ ?_ v hv
  · intro o ho
    simp only [List.mem_cons, List.not_mem_nil, or_false] at ho
    rcases ho with rfl | rfl
    · exact omap_bounds _ _ (fun p => by split_ifs <;> norm_num)
    · exact omap_bounds _ _ (fun p => by split_ifs <;> norm_num)
  · intro w hw
    simp only [List.mem_cons, List.not_mem_nil, or_false] at hw
    rcases hw with rfl | rfl <;> norm_num

/-- C8 (amended): every category score that `compute_category_scores`
returns as non-null lies in `[0, 10]`, PROVIDED the four pass-through
expert inputs (`moat_score_0_10`, `riskdownside_score_0_10`,
`macrofit_score_0_10`, `narrative_score_0_10`) are themselves within
`[0, 10]` whenever present.  (Without that proviso the claim fails: those
four inputs are forwarded unclamped, see the counterexample.) -/
theorem category_scores_bounded (lg : ℚ → ℚ) (m : Metrics)
    (hmoat : ∀ v, m.num "moat_score_0_10" = some v → 0 ≤ v ∧ v ≤ 10)
    (hrisk : ∀ v, m.num "riskdownside_score_0_10" = some v → 0 ≤ v ∧ v ≤ 10)
    (hfit : ∀ v, m.num "macrofit_score_0_10" = some v → 0 ≤ v ∧ v ≤ 10)
    (hnarr : ∀ v, m.num "narrative_score_0_10" = some v → 0 ≤ v ∧ v ≤ 10) :
    ∀ (c : Category) (v : ℚ), computeCategoryScores lg m c = some v →
      0 ≤ v ∧ v ≤ 10 := by
  intro c
  cases c with
  | valuation => exact scoreValuation_bounds m
  | quality => exact scoreQuality_bounds m
  | capitalAllocation => exact scoreCapitalAllocation_bounds lg m
  | growth => exact scoreGrowth_bounds m
  | moat => exact scoreMoat_bounds m hmoat
  | risk => exact scoreRisk_bounds m hrisk
  | macroTheme => exact hfit
  | narrative => exact hnarr
  | dilution => exact scoreDilution_bounds m

/-- C8 counterexample: `_score_macro` forwards its base field unclamped, so
an out-of-range `macrofit_score_0_10 = 15` yields a macro category score of
15, outside `[0, 10]` — the claim as stated ("for every input metrics dict,
including out-of-range base scores") is false on the code. -/
theorem category_scores_bounded_counterexample :
    computeCategoryScores (fun _ => 0) metricsMacroFit15 Category.macroTheme = some 15
    ∧ ¬ ((15 : ℚ) ≤ 10) := by
  constructor
  · simp [computeCategoryScores, scoreMacroFit, metricsMacroFit15]
  · norm_num

/-- Witness for C8: the amended theorem applied to a concrete metrics dict
whose pass-through fields are in range. -/
theorem category_scores_bounded_witness : 0 ≤ (8 : ℚ) ∧ (8 : ℚ) ≤ 10 :=
  category_scores_bounded (fun _ => 0) metricsAll8
    (fun v h => by injection h with h2; exact h2 ▸ ⟨by decide, by decide⟩)
    (fun v h => by injection h with h2; exact h2 ▸ ⟨by decide, by decide⟩)
    (fun v h => by injection h with h2; exact h2 ▸ ⟨by decide, by decide⟩)
    (fun v h => by injection h with h2; exact h2 ▸ ⟨by decide, by decide⟩)
    Category.macroTheme 8 rfl

/-- Witness for C3 at the 3-quarter fixture. -/
theorem check_ttm_coverage_spec_witness :
    (checkTTMCoverage fixture3Q "TEST").sufficient = false
    ∧ (runPipelineCore "TEST" fixture3Q [] none).ttm_insufficient = true
    ∧ (runPipelineCore "TEST" fixture3Q [] none).eps_ttm = none :=
  ⟨(check_ttm_coverage_spec.2.1 fixture3Q "TEST" (by decide)).2.1,
   (check_ttm_coverage_spec.2.2 "TEST" fixture3Q [] none (by decide)).1,
   (check_ttm_coverage_spec.2.2 "TEST" fixture3Q [] none (by decide)).2⟩

end StockLenses
